import Mathlib

/-!
Verification development for the `lucy` interpreter (lexer, parser, code
generator and stack virtual machine, `src/lucy/`).  The definitions below are a
shallow embedding of the Python sources: `lucy_data.py` (value model and
`TableData`), `exceptions.py` (`ErrorCode`), `lexer.py` (token kinds and the
reserved-word table), `codegen.py` (the instruction set) and `lvm.py` (the
virtual machine loop, `code_call`, and the builtin functions).  Machine
integers are `Int` (Python integers are unbounded); Python floats are embedded
as rationals `ℚ`, so float arithmetic is exact where the host would round, and
division by zero is modelled as the `ZeroDivisionError` the host raises.
-/

namespace Lucy

/-! ## exceptions.py — `ErrorCode`

The enum members exactly as `exceptions.py` declares them.  Note that the
source file defines no `ASSERT_ERROR`, `IMPORT_ERROR` or `NONLOCAL_ERROR`
member, although `lvm.py` mentions the first two. -/

inductive ErrorCode where
  | LEXER_ERROR
  | UNEXPECTED_TOKEN
  | ASSIGNING_TO_RVALUE
  | GOTO_UNEXPECTED_EXPRESSION
  | UNEXPECTED_AST_NODE
  | UNSYNTACTIC_BREAK
  | UNSYNTACTIC_CONTINUE
  | TYPE_ERROR
  | CALL_ERROR
  | EXTEND_FUNCTION_ERROR
  deriving DecidableEq, Repr

/-- The string value each `ErrorCode` member carries in `exceptions.py`. -/
def ErrorCode.value : ErrorCode → String
  | .LEXER_ERROR => "Lexer Error"
  | .UNEXPECTED_TOKEN => "Unexpected token"
  | .ASSIGNING_TO_RVALUE => "Assigning to rvalue"
  | .GOTO_UNEXPECTED_EXPRESSION => "Goto unexpected expression"
  | .UNEXPECTED_AST_NODE => "Unexpected ast node"
  | .UNSYNTACTIC_BREAK => "Unsyntactic break"
  | .UNSYNTACTIC_CONTINUE => "Unsyntactic continue"
  | .TYPE_ERROR => "Type Error"
  | .CALL_ERROR => "Call Error"
  | .EXTEND_FUNCTION_ERROR => "Extend Function Error"

/-! ## codegen.py — `Function` descriptors

`Function` records a parameter count, the (relocated) code address of the
body and the `is_closure` flag.  `ExtendFunction` (lucy_data.py) is a host
function; we index the host callable by a number and let the machine carry
the behaviour of the stateful host callables (see `hostCall` below). -/

structure FunctionData where
  params_num : Nat
  address : Nat
  is_closure : Bool
  deriving DecidableEq, Repr

inductive FuncKind where
  /-- An ordinary bytecode `Function` constant. -/
  | code (f : FunctionData)
  /-- An `ExtendFunction`: arity plus an index naming the host callable. -/
  | extend (params_num : Nat) (hostId : Nat)
  deriving DecidableEq, Repr

def FuncKind.paramsNum : FuncKind → Nat
  | .code f => f.params_num
  | .extend n _ => n

/-! ## lucy_data.py — the value universe `T_Data`

`T_Data = Union[NullData, BooleanData, IntegerData, FloatData, StringData,
TableData, ClosureData]`.  A `TableData` is a Python `dict` keyed by values;
we embed it as its (insertion-ordered) entry list.  A `ClosureData` is
embedded by its object identity (`ident`, standing for the Python object id,
fresh at each allocation), its `module_id` and its `function`; closures whose
`base_closure` chain matters are treated separately (see `store_step`). -/

inductive T_Data where
  | null
  | bool (b : Bool)
  | int (n : Int)
  | float (q : ℚ)
  | str (s : String)
  | table (entries : List (T_Data × T_Data))
  | closure (ident : Nat) (moduleId : Nat) (fn : FuncKind)
  deriving Repr

/-- `isinstance(v, NullData)`. -/
def isNullV : T_Data → Bool
  | .null => true
  | _ => false

/-- `isinstance(v, BooleanData)`. -/
def isBoolV : T_Data → Bool
  | .bool _ => true
  | _ => false

/-- `isinstance(v, IntegerData)`.  In Python `bool` is a subclass of `int`,
so a boolean satisfies this test as well. -/
def isIntInstance : T_Data → Bool
  | .bool _ => true
  | .int _ => true
  | _ => false

/-- `isinstance(v, FloatData)`. -/
def isFloatV : T_Data → Bool
  | .float _ => true
  | _ => false

/-- `isinstance(v, StringData)`. -/
def isStrV : T_Data → Bool
  | .str _ => true
  | _ => false

/-- `isinstance(v, TableData)`. -/
def isTableV : T_Data → Bool
  | .table _ => true
  | _ => false

/-- `isinstance(v, ClosureData)`. -/
def isClosureV : T_Data → Bool
  | .closure _ _ _ => true
  | _ => false

/-- `isinstance(v, HASHABLE_DATA_TYPE)`:
`(NullData, BooleanData, IntegerData, FloatData, StringData)`. -/
def isHashable : T_Data → Bool
  | .null | .bool _ | .int _ | .float _ | .str _ => true
  | _ => false

/-- The numeric value of a Python number (`bool`, `int` or `float`), used to
model Python's cross-type numeric `==` and `<`: `True == 1` and `1 == 1.0`
hold in the host language. -/
def toRatNum : T_Data → Option ℚ
  | .bool b => some (if b then 1 else 0)
  | .int n => some (n : ℚ)
  | .float q => some q
  | _ => none

/-- The integer a value that passes `isinstance(v, IntegerData)` stands for
(`True` is `1`, `False` is `0`). -/
def toIntV : T_Data → Int
  | .bool b => if b then 1 else 0
  | .int n => n
  | _ => 0

mutual

/-- Python `==` on embedded values, total (it raises for none of them):
`None` equals only `None`; numbers (`bool`/`int`/`float`) compare by numeric
value; strings by contents; `dict`s structurally (key sets and values, order
irrelevant — entries of a `dict` have pairwise-unequal keys, so checking that
each entry of one side occurs in the other and that lengths agree is the
host's dict equality); objects such as `ClosureData` by identity. -/
def pyEq : T_Data → T_Data → Bool
  | .null, .null => true
  | .str a, .str b => a == b
  | .table t1, .table t2 => (t1.length == t2.length) && pyDictLe t1 t2
  | .closure i _ _, .closure j _ _ => i == j
  | a, b =>
    match toRatNum a, toRatNum b with
    | some x, some y => x == y
    | _, _ => false
termination_by a b => sizeOf a + sizeOf b

/-- Every entry of the first list occurs (up to `pyEq`) in the second. -/
def pyDictLe : List (T_Data × T_Data) → List (T_Data × T_Data) → Bool
  | [], _ => true
  | (k, v) :: rest, t2 => pyHasEntry t2 k v && pyDictLe rest t2
termination_by t1 t2 => sizeOf t1 + sizeOf t2

/-- Some entry of the list matches the given key and value up to `pyEq`. -/
def pyHasEntry : List (T_Data × T_Data) → T_Data → T_Data → Bool
  | [], _, _ => false
  | (k2, v2) :: rest, k, v => (pyEq k k2 && pyEq v v2) || pyHasEntry rest k v
termination_by t k v => sizeOf t + sizeOf k + sizeOf v

end

/-! ## lucy_data.py — `TableData`

A `dict` subclass: `__getitem__` of a missing key yields `Null`;
`__setitem__` of `Null` deletes the key (`del` of a missing key is ignored);
an overwrite keeps the stored key object and the entry position (host dict
behaviour); key matching is the host's `==` on hashable values. -/

/-- Find the value stored under the first key matching `k`. -/
def assocFind : List (T_Data × T_Data) → T_Data → Option T_Data
  | [], _ => none
  | p :: rest, k => if pyEq k p.1 then some p.2 else assocFind rest k

/-- `del t[k]`: remove the (unique) entry whose key matches `k`. -/
def removeKey : List (T_Data × T_Data) → T_Data → List (T_Data × T_Data)
  | [], _ => []
  | p :: rest, k => if pyEq k p.1 then rest else p :: removeKey rest k

/-- `dict.__setitem__` with a non-null value: overwrite in place or append. -/
def setKey : List (T_Data × T_Data) → T_Data → T_Data → List (T_Data × T_Data)
  | [], k, v => [(k, v)]
  | p :: rest, k, v => if pyEq k p.1 then (p.1, v) :: rest else p :: setKey rest k v

/-- `TableData.__getitem__`: the stored value, or `Null` when missing. -/
def tableGet (t : List (T_Data × T_Data)) (k : T_Data) : T_Data :=
  match assocFind t k with
  | some v => v
  | none => .null

/-- `TableData.__setitem__`: storing `Null` deletes the key. -/
def tableSet (t : List (T_Data × T_Data)) (k v : T_Data) : List (T_Data × T_Data) :=
  if isNullV v then removeKey t k else setKey t k v

/-- `libs/table.py` `table_raw_set`: `table[key] = value`. -/
def table_raw_set (t : List (T_Data × T_Data)) (k v : T_Data) : List (T_Data × T_Data) :=
  tableSet t k v

/-- `libs/table.py` `table_raw_get`: `table[key]`. -/
def table_raw_get (t : List (T_Data × T_Data)) (k : T_Data) : T_Data :=
  tableGet t k

/-- The loop body of `TableData.get` (lucy_data.py lines 48–57), with an
explicit bound on the number of `__base__` hops: look the key up in the
table itself, and while the result is null follow the `__base__` entry as
long as it is a table.  The source's `while` loop carries no bound and
terminates on acyclic chains (spec invariant I2); embedded values are finite
trees, so any bound at least the size of the table value is exact (each hop
descends into a strict sub-value). -/
def TableData.getChain : Nat → List (T_Data × T_Data) → T_Data → T_Data
  | 0, _, _ => .null
  | fuel + 1, t, key =>
    match tableGet t key with
    | .null =>
      match tableGet t (.str "__base__") with
      | .table base => TableData.getChain fuel base key
      | _ => .null
    | item => item

mutual

/-- The number of constructors of a value — an executable size. -/
def tSize : T_Data → Nat
  | .table es => 1 + tListSize es
  | _ => 1
termination_by v => sizeOf v

/-- The summed size of an entry list. -/
def tListSize : List (T_Data × T_Data) → Nat
  | [] => 0
  | (k, v) :: rest => 1 + tSize k + tSize v + tListSize rest
termination_by l => sizeOf l

end

/-- `TableData.get` (lucy_data.py lines 48–57): the prototype-chain lookup.
The bound `tListSize t` dominates the chain depth of the finite value `t`
(each `__base__` hop moves to a strict sub-value). -/
def TableData.get (t : List (T_Data × T_Data)) (key : T_Data) : T_Data :=
  TableData.getChain (1 + tListSize t) t key

/-! ## lexer.py — token kinds and the reserved-word table

`TokenType` lists its members in source order; `reserved_word()` builds the
keyword dictionary from the slice of members from `IF` to `FALSE`
(`_build_reserved_dict(TokenType.IF, TokenType.FALSE)`), keyed by each
member's string value. -/

inductive TokenType where
  | IF | ELSE | LOOP | WHILE | FOR | IN | BREAK | CONTINUE | GOTO | RETURN | GLOBAL
  | IS | AND | OR | FUNC
  | NULL | TRUE | FALSE
  | LBRACE | RBRACE | LBRACKET | RBRACKET | LPAREN | RPAREN
  | COMMA | SEMI | COLON | POINT | VBAR
  | ASSIGN | ADD | SUB | MUL | DIV | MOD | NOT | LESS | GREATER
  | EQUAL | NOT_EQUAL | LESS_EQUAL | GREATER_EQUAL
  | PLUS_ASSIGN | MINUS_ASSIGN | MUL_ASSIGN | DIV_ASSIGN | MOD_ASSIGN
  | INTEGER | FLOAT | STRING | ID | EOF
  deriving DecidableEq, Repr

/-- The string value of each `TokenType` member. -/
def TokenType.value : TokenType → String
  | .IF => "if" | .ELSE => "else" | .LOOP => "loop" | .WHILE => "while"
  | .FOR => "for" | .IN => "in" | .BREAK => "break" | .CONTINUE => "continue"
  | .GOTO => "goto" | .RETURN => "return" | .GLOBAL => "global"
  | .IS => "is" | .AND => "and" | .OR => "or" | .FUNC => "func"
  | .NULL => "null" | .TRUE => "true" | .FALSE => "false"
  | .LBRACE => "\x7b" | .RBRACE => "\x7d" | .LBRACKET => "[" | .RBRACKET => "]"
  | .LPAREN => "(" | .RPAREN => ")"
  | .COMMA => "," | .SEMI => ";" | .COLON => ":" | .POINT => "." | .VBAR => "|"
  | .ASSIGN => "=" | .ADD => "+" | .SUB => "-" | .MUL => "*" | .DIV => "/"
  | .MOD => "%" | .NOT => "!" | .LESS => "<" | .GREATER => ">"
  | .EQUAL => "==" | .NOT_EQUAL => "!=" | .LESS_EQUAL => "<=" | .GREATER_EQUAL => ">="
  | .PLUS_ASSIGN => "+=" | .MINUS_ASSIGN => "-=" | .MUL_ASSIGN => "*=" | .DIV_ASSIGN => "/="
  | .MOD_ASSIGN => "%="
  | .INTEGER => "INTEGER" | .FLOAT => "FLOAT" | .STRING => "STRING"
  | .ID => "ID" | .EOF => "EOF"

/-- `list(TokenType)`: the members in declaration order. -/
def token_list : List TokenType :=
  [.IF, .ELSE, .LOOP, .WHILE, .FOR, .IN, .BREAK, .CONTINUE, .GOTO, .RETURN, .GLOBAL,
   .IS, .AND, .OR, .FUNC, .NULL, .TRUE, .FALSE,
   .LBRACE, .RBRACE, .LBRACKET, .RBRACKET, .LPAREN, .RPAREN,
   .COMMA, .SEMI, .COLON, .POINT, .VBAR,
   .ASSIGN, .ADD, .SUB, .MUL, .DIV, .MOD, .NOT, .LESS, .GREATER,
   .EQUAL, .NOT_EQUAL, .LESS_EQUAL, .GREATER_EQUAL,
   .PLUS_ASSIGN, .MINUS_ASSIGN, .MUL_ASSIGN, .DIV_ASSIGN, .MOD_ASSIGN,
   .INTEGER, .FLOAT, .STRING, .ID, .EOF]

/-- `TokenType._build_reserved_dict(start, end)`: the dictionary mapping each
member's value to the member, over the member slice
`token_list[start_index : end_index + 1]`. -/
def build_reserved_dict (start fin : TokenType) : List (String × TokenType) :=
  let start_index := (token_list.indexOf start)
  let end_index := (token_list.indexOf fin)
  ((token_list.drop start_index).take (end_index + 1 - start_index)).map
    (fun t => (t.value, t))

/-- `TokenType.reserved_word()`: `_build_reserved_dict(IF, FALSE)`. -/
def reserved_word : List (String × TokenType) :=
  build_reserved_dict .IF .FALSE

/-- The identifier branch of `Lexer.get_next_token` (lexer.py lines 199–216):
after scanning a word, `TokenType.reserved_word().get(value)` decides between
a keyword token and `ID`. -/
def identTokenType (w : String) : TokenType :=
  match reserved_word.lookup w with
  | some t => t
  | none => .ID

/-! ## lvm.py — builtin functions and the host-call boundary -/

/-- A Python exception escaping a host callable: either an `LVMError` that
was raised on purpose, or an interpreter-level error such as the
`AttributeError` produced by reading a missing enum member. -/
inductive PyExc where
  | lvmError (code : ErrorCode)
  | attributeError (missingMember : String)
  deriving DecidableEq, Repr

/-- `lucy_type` (lvm.py lines 17–33). -/
def lucy_type : T_Data → Except PyExc T_Data
  | .null => .ok (.str "null")
  | .bool _ => .ok (.str "bool")
  | .int _ => .ok (.str "int")
  | .float _ => .ok (.str "float")
  | .str _ => .ok (.str "string")
  | .table _ => .ok (.str "table")
  | .closure _ _ _ => .ok (.str "function")

/-- `lucy_assert` (lvm.py lines 36–40): for `Null` or `False` it executes
`raise LVMError(ErrorCode.ASSERT_ERROR)` — but `exceptions.py` declares no
`ASSERT_ERROR` member, so evaluating the attribute `ErrorCode.ASSERT_ERROR`
itself raises `AttributeError('ASSERT_ERROR')`; otherwise the argument is
returned unchanged. -/
def lucy_assert (v : T_Data) : Except PyExc T_Data :=
  match v with
  | .null => .error (.attributeError "ASSERT_ERROR")
  | .bool false => .error (.attributeError "ASSERT_ERROR")
  | v => .ok v

/-- The error-handling half of the `ExtendFunction` branch of `LVM.code_call`
(lvm.py lines 477–491): any exception the host callable raises is re-raised
as `LVMError(ErrorCode.EXTEND_FUNCTION_ERROR)`.  (The subsequent
`isinstance(return_value, LUCY_DATA_TYPE)` check cannot fail here: the
embedded host results are `T_Data` by construction.) -/
def extend_call (result : Except PyExc T_Data) : Except ErrorCode T_Data :=
  match result with
  | .error _ => .error .EXTEND_FUNCTION_ERROR
  | .ok v => .ok v

/-! ## lvm.py — variable maps and the `STORE` resolution

A `VariablesDict` maps names to lucy values or to the `GlobalReference`
sentinel; it never stores `Null` (storing `Null` deletes).  A missing name
reads as `Null`. -/

/-- A slot of a `VariablesDict`: the `GlobalReference` sentinel or a stored
(non-null) value. -/
inductive Slot where
  | globalRef
  | val (v : T_Data)
  deriving Repr

def VarMap := List (String × Slot)

/-- `VariablesDict.__getitem__`: `none` models the `Null` a missing name
reads as. -/
def varLookup : VarMap → String → Option Slot
  | [], _ => none
  | (m, s) :: rest, n => if m = n then some s else varLookup rest n

/-- `VariablesDict.__setitem__` with a non-null slot. -/
def varSet : VarMap → String → Slot → VarMap
  | [], n, s => [(n, s)]
  | (m, s0) :: rest, n, s => if m = n then (m, s) :: rest else (m, s0) :: varSet rest n s

/-- `dict.pop(name, None)`: remove the binding if present. -/
def varErase : VarMap → String → VarMap
  | [], _ => []
  | (m, s0) :: rest, n => if m = n then rest else (m, s0) :: varErase rest n

/-- `temp.pop(value, None)` / `temp[value] = x` — the write at the end of the
`STORE` branch: storing `Null` deletes the binding. -/
def varWrite (m : VarMap) (n : String) (top : T_Data) : VarMap :=
  if isNullV top then varErase m n else varSet m n (.val top)

/-- The `STORE` branch of `LVM.run` (lvm.py lines 173–189), given the current
frame's locals, the variables maps along the frame's `base_closure` chain
(nearest enclosing first) and the global closure's variables.  The result is
the triple (locals, chain, globals) after the store.  When the local slot is
marked `GlobalReference` but the frame has no global closure (only the global
frame itself), the source would crash with `AttributeError`; `none` models
that. -/
def store_step (locals_ : VarMap) (chain : List VarMap) (globals_ : Option VarMap)
    (name : String) (top : T_Data) : Option (VarMap × List VarMap × Option VarMap) :=
  match varLookup locals_ name with
  | some .globalRef =>
    match globals_ with
    | some g => some (locals_, chain, some (varWrite g name top))
    | none => none
  | _ =>
    -- walk the base_closure chain; write to the first map that already
    -- binds the name to something non-null, else to the current locals
    match chainWrite chain name top with
    | some chain2 => some (locals_, chain2, globals_)
    | none => some (varWrite locals_ name top, chain, globals_)
where
  /-- The `while closure is not None` walk: update the first map of the chain
  in which the name reads non-null; `none` when no map binds it. -/
  chainWrite : List VarMap → String → T_Data → Option (List VarMap)
  | [], _, _ => none
  | m :: rest, n, t =>
    match varLookup m n with
    | some _ => some (varWrite m n t :: rest)
    | none =>
      match chainWrite rest n t with
      | some rest2 => some (m :: rest2)
      | none => none

/-! ## codegen.py / lvm.py — the instruction set and programs

An instruction is an opcode together with its (relocated) argument.  The
opcode set is the one `LVM.run` dispatches on.  (`lvm.py` also matches an
opcode `GET_LEN` that `codegen.py`'s enum does not declare — the two files
are from different revisions; the seam is outside the fragments the claims
cite, and `GET_LEN` is included here as the VM handles it.) -/

inductive OPCode where
  | POP | DUP | DUP_TWO | ROT_TWO
  | LOAD_NAME (n : Nat) | LOAD_CONST (c : Nat) | STORE (n : Nat) | GLOBAL (n : Nat)
  | IMPORT (c : Nat) | IMPORT_FROM (c : Nat) | IMPORT_STAR
  | BUILD_TABLE (count : Nat)
  | GET_ATTR | GET_ITEM | SET_ATTR | SET_ITEM
  | FOR (target : Nat)
  | NEG | NOT | GET_LEN
  | ADD | SUB | MUL | DIV | MOD
  | COMPARE_OP (k : Nat) | IS
  | JUMP (target : Nat)
  | JUMP_IF_TRUE (target : Nat) | JUMP_IF_FALSE (target : Nat)
  | JUMP_IF_TRUE_OR_POP (target : Nat) | JUMP_IF_FALSE_OR_POP (target : Nat)
  | CALL (count : Nat) | GOTO (count : Nat) | RETURN
  deriving DecidableEq, Repr

/-- `cmp_op` (codegen.py line 96). -/
def cmp_op : List String := ["<", "<=", "==", "!=", ">", ">="]

/-- `COMPARE_OPERATORS` (lvm.py lines 50–57): operator → metamethod key. -/
def compareOperatorKey (op : String) : String :=
  if op = "<" then "__lt__"
  else if op = "<=" then "__le__"
  else if op = "==" then "__eq__"
  else if op = "!=" then "__ne__"
  else if op = ">" then "__gt__"
  else if op = ">=" then "__ge__"
  else ""

/-- A constant-pool entry: plain data or a `Function` descriptor. -/
inductive ConstData where
  | data (v : T_Data)
  | fn (f : FunctionData)
  deriving Repr

/-- `CodeProgram`: code list, constant pool and name pool. -/
structure CodeProgram where
  code_list : List OPCode
  const_list : List ConstData
  name_list : List String

/-! ## lvm.py — stack frames and the machine state -/

/-- `StackFrame`: its closure's variables (`vars`, plus whether the closure is
the global frame's — the global closure's variables live in
`VMState.globalVars`), the operand stack (head = top), the return address
`(module_id, pc)`, the `no_return` flag, and the `call_flag` used by the
metamethod re-entry pattern. -/
structure Frame where
  operateStack : List T_Data
  returnAddress : Nat × Nat
  noReturn : Bool
  callFlag : Bool
  vars : VarMap
  isGlobal : Bool

/-- The machine state: the call stack (head = `call_stack[-1]`, the current
frame), the global closure's variables, the VM's own `module_id`, the current
module id and pc, the next fresh `ClosureData` identity, and how often the
stateful host iterator has been called (its internal state). -/
structure VMState where
  callStack : List Frame
  globalVars : VarMap
  moduleId : Nat
  currentModuleId : Nat
  pc : Nat
  nextId : Nat
  hostCalls : Nat

/-- How a step can fail: a raised `LVMError`; the `ZeroDivisionError` Python
`//`, `/`, `%` raise; an interpreter-level crash (`IndexError` on an empty
list / out-of-range fetch, `AttributeError` on a missing attribute); or a
source feature outside this embedding (`IMPORT`, `is` object identity,
closure-capture constants — the last is treated separately via
`store_step`). -/
inductive VMErr where
  | lvm (code : ErrorCode)
  | zeroDivisionError
  | hostCrash (what : String)
  | unsupported (what : String)
  deriving DecidableEq, Repr

inductive StepOut where
  | next (s : VMState)
  | halt
  | err (e : VMErr)

/-- The host callables reachable in this embedding, by index: `0` = the
builtin `type`, `1` = the builtin `assert`, `2` = a zero-argument stateful
iterator whose behaviour is the parameter `iter` (call number ↦ returned
value) — the embedding of an arbitrary `ExtendFunction` iterator closure.
Arity is checked by `code_call` before dispatch. -/
def hostCall (iter : Nat → T_Data) (hostId : Nat) (callIdx : Nat)
    (args : List T_Data) : Except PyExc T_Data :=
  match hostId, args with
  | 0, [v] => lucy_type v
  | 1, [v] => lucy_assert v
  | 2, [] => .ok (iter callIdx)
  | _, _ => .error (.attributeError "host callable")

/-- `self.builtin_namespace` (lvm.py lines 96–99). -/
def builtin_namespace : List (String × T_Data) :=
  [("type", .closure 0 0 (.extend 1 0)), ("assert", .closure 1 0 (.extend 1 1))]

/-- Read a name from a variables map the way `LOAD_NAME` does: a missing name
reads as `Null`; a `GlobalReference` slot read as a plain value is outside
the embedding. -/
def readVar (m : VarMap) (n : String) : Except VMErr T_Data :=
  match varLookup m n with
  | some (.val v) => .ok v
  | some .globalRef => .error (.unsupported "GlobalReference read as a value")
  | none => .ok .null

/-- `LVM.code_call` (lvm.py lines 451–504).  `ws` is the working operand
stack (`self.current_operate_stack`): the current frame's for `CALL`, `FOR`
and metamethod dispatch, the just-popped frame's for `GOTO`.  `keepFrame` is
the frame that stays beneath the callee and receives the remaining working
stack (`none` for `GOTO`, whose frame was discarded — an `ExtendFunction`
result would then be appended to the dead frame's stack and lost).
`restFrames` are the frames below that.  For a bytecode closure a fresh
`ClosureData` copy is allocated and a new frame pushed with the popped
arguments as its operand stack and return address
`(current_module_id, returnPc)`; for an `ExtendFunction` the host callable is
invoked on the arguments in source order and the validated result pushed. -/
def code_call (iter : Nat → T_Data) (st : VMState) (ws : List T_Data)
    (keepFrame : Option Frame) (restFrames : List Frame)
    (argNum returnPc : Nat) (popClosure : Bool) (noRet : Bool) : StepOut :=
  if ws.length < argNum then .err (.hostCrash "IndexError") else
  let argumentsList := ws.take argNum
  let ws1 := ws.drop argNum
  match ws1 with
  | [] => .err (.hostCrash "IndexError")
  | callee0 :: ws1tail =>
    let ws2 := if popClosure then ws1tail else ws1
    -- a Table with a __call__ closure: substitute the closure and append
    -- the table as an additional (first, see frame stack order) argument
    let calleeArgs : T_Data × List T_Data :=
      match callee0 with
      | .table es =>
        match tableGet es (.str "__call__") with
        | .closure i m fn => (.closure i m fn, argumentsList ++ [callee0])
        | _ => (callee0, argumentsList)
      | _ => (callee0, argumentsList)
    match calleeArgs with
    | (.closure _ cmod fn, args) =>
      if args.length ≠ fn.paramsNum then .err (.lvm .CALL_ERROR) else
      match fn with
      | .extend _ hostId =>
        let bumped := if hostId = 2 then st.hostCalls + 1 else st.hostCalls
        match extend_call (hostCall iter hostId st.hostCalls args.reverse) with
        | .error c => .err (.lvm c)
        | .ok rv =>
          match keepFrame with
          | some f =>
            .next { st with
              callStack := { f with operateStack := rv :: ws2 } :: restFrames,
              pc := returnPc, hostCalls := bumped }
          | none =>
            .next { st with callStack := restFrames, pc := returnPc, hostCalls := bumped }
      | .code fd =>
        let newFrame : Frame :=
          { operateStack := args.reverse,
            returnAddress := (st.currentModuleId, returnPc),
            noReturn := noRet, callFlag := false, vars := [], isGlobal := false }
        let frames :=
          match keepFrame with
          | some f => newFrame :: { f with operateStack := ws2 } :: restFrames
          | none => newFrame :: restFrames
        .next { st with
          callStack := frames, currentModuleId := cmod, pc := fd.address,
          nextId := st.nextId + 1 }
    | (_, _) => .err (.lvm .TYPE_ERROR)

/-- `number_only_operator` (lvm.py lines 127–135) as a predicate: `True` when
no `TYPE_ERROR` is raised.  Note `isinstance(x, IntegerData)` accepts
booleans (host subclassing). -/
def numberOnlyOk (arg1 arg2 : T_Data) : Bool :=
  if isIntInstance arg1 then isIntInstance arg2
  else if isFloatV arg1 then isFloatV arg2
  else false

/-- Python `%` on rationals (sign follows the divisor, as the host's float
`%`). -/
def floatMod (a b : ℚ) : ℚ := a - b * (⌊a / b⌋ : ℤ)

/-- The primitive result of `ADD`/`SUB`/`MUL`/`DIV`/`MOD` once the operand
checks passed (lvm.py lines 351–363). -/
def binaryPrimitive (op : OPCode) (arg1 arg2 : T_Data) : Except VMErr T_Data :=
  match op, arg1, arg2 with
  | .ADD, .str a, .str b => .ok (.str (a ++ b))
  | .DIV, _, _ =>
    if isIntInstance arg1 then
      if toIntV arg2 = 0 then .error .zeroDivisionError
      else .ok (.int (Int.fdiv (toIntV arg1) (toIntV arg2)))
    else
      match arg1, arg2 with
      | .float a, .float b =>
        if b = 0 then .error .zeroDivisionError else .ok (.float (a / b))
      | _, _ => .error (.hostCrash "unreachable")
  | .MOD, _, _ =>
    if isIntInstance arg1 then
      if toIntV arg2 = 0 then .error .zeroDivisionError
      else .ok (.int (Int.fmod (toIntV arg1) (toIntV arg2)))
    else
      match arg1, arg2 with
      | .float a, .float b =>
        if b = 0 then .error .zeroDivisionError else .ok (.float (floatMod a b))
      | _, _ => .error (.hostCrash "unreachable")
  | op, _, _ =>
    if isIntInstance arg1 then
      let a := toIntV arg1; let b := toIntV arg2
      match op with
      | .ADD => .ok (.int (a + b))
      | .SUB => .ok (.int (a - b))
      | .MUL => .ok (.int (a * b))
      | _ => .error (.hostCrash "unreachable")
    else
      match arg1, arg2 with
      | .float a, .float b =>
        match op with
        | .ADD => .ok (.float (a + b))
        | .SUB => .ok (.float (a - b))
        | .MUL => .ok (.float (a * b))
        | _ => .error (.hostCrash "unreachable")
      | _, _ => .error (.hostCrash "unreachable")

/-- `BINARY_OPCODES` (lvm.py lines 43–49): the table-metamethod key of an
arithmetic opcode. -/
def binaryTableKey (op : OPCode) : String :=
  match op with
  | .ADD => "__add__" | .SUB => "__sub__" | .MUL => "__mul__"
  | .DIV => "__div__" | .MOD => "__mod__"
  | _ => ""

/-- The ordering comparisons once `number_only_operator` passed (lvm.py
lines 389–396): numeric comparison of two int-instances or two floats. -/
def compareNumeric (op : String) (arg1 arg2 : T_Data) : Except VMErr T_Data :=
  match toRatNum arg1, toRatNum arg2 with
  | some a, some b =>
    if op = "<" then .ok (.bool (a < b))
    else if op = "<=" then .ok (.bool (a ≤ b))
    else if op = ">" then .ok (.bool (a > b))
    else if op = ">=" then .ok (.bool (a ≥ b))
    else .error (.hostCrash "unreachable")
  | _, _ => .error (.hostCrash "unreachable")

/-- `BUILD_TABLE`'s insertion loop (lvm.py lines 242–246): the pairs arrive
in original textual order; each key is checked hashable and inserted through
`TableData.__setitem__`. -/
def buildTableLoop : List (T_Data × T_Data) → List T_Data →
    Except VMErr (List (T_Data × T_Data))
  | t, [] => .ok t
  | t, key :: v :: restPairs =>
    if isHashable key then buildTableLoop (tableSet t key v) restPairs
    else .error (.lvm .TYPE_ERROR)
  | _, [_] => .error (.hostCrash "IndexError")

/-- Fetch the instruction the machine is about to execute. -/
def fetchInstr (packages : List CodeProgram) (st : VMState) : Option OPCode :=
  match packages[st.currentModuleId]? with
  | none => none
  | some prog => prog.code_list[st.pc]?

/-- One iteration of the `while True` loop of `LVM.run` (lvm.py
lines 137–449), for the instruction fragment this development uses.
`IMPORT`/`IMPORT_FROM`/`IMPORT_STAR` (which compile and run other files) and
`IS` (host object identity) are marked `unsupported`; so are constants whose
`is_closure` flag would capture a `base_closure` chain — the upvalue
semantics of `STORE` over such chains is settled through `store_step`
directly. -/
def step (iter : Nat → T_Data) (packages : List CodeProgram) (st : VMState) : StepOut :=
  match st.callStack with
  | [] => .err (.hostCrash "IndexError")
  | f :: rest =>
    match packages[st.currentModuleId]? with
    | none => .err (.hostCrash "IndexError")
    | some prog =>
      match prog.code_list[st.pc]? with
      | none => .err (.hostCrash "IndexError")
      | some instr =>
        let s := f.operateStack
        let cv := if f.isGlobal then st.globalVars else f.vars
        match instr with
        | .LOAD_CONST c =>
          match prog.const_list[c]? with
          | none => .err (.hostCrash "IndexError")
          | some (.data v) =>
            .next { st with callStack := { f with operateStack := v :: s } :: rest,
                            pc := st.pc + 1 }
          | some (.fn fd) =>
            if fd.is_closure then .err (.unsupported "base_closure capture")
            else
              .next { st with
                callStack :=
                  { f with operateStack :=
                      .closure st.nextId st.moduleId (.code fd) :: s } :: rest,
                pc := st.pc + 1, nextId := st.nextId + 1 }
        | .LOAD_NAME n =>
          match prog.name_list[n]? with
          | none => .err (.hostCrash "IndexError")
          | some name =>
            let stage1 : Except VMErr T_Data :=
              match varLookup cv name with
              | some .globalRef =>
                -- the global frame's closure has global_closure = None
                if f.isGlobal then .error (.hostCrash "AttributeError")
                else readVar st.globalVars name
              | some (.val v) => .ok v
              | none => .ok .null
            -- the base_closure walk is vacuous: frames here have no chain
            match stage1 with
            | .error e => .err e
            | .ok t0 =>
              let stage2 : Except VMErr T_Data :=
                if isNullV t0 && !f.isGlobal then readVar st.globalVars name
                else .ok t0
              match stage2 with
              | .error e => .err e
              | .ok t1 =>
                let target :=
                  if isNullV t1 then
                    match builtin_namespace.lookup name with
                    | some v => v
                    | none => .null
                  else t1
                .next { st with
                  callStack := { f with operateStack := target :: s } :: rest,
                  pc := st.pc + 1 }
        | .STORE n =>
          match prog.name_list[n]? with
          | none => .err (.hostCrash "IndexError")
          | some name =>
            match s with
            | [] => .err (.hostCrash "IndexError")
            | top :: s2 =>
              let gv : Option VarMap := if f.isGlobal then none else some st.globalVars
              match store_step cv [] gv name top with
              | none => .err (.hostCrash "AttributeError")
              | some (l2, _, g2) =>
                if f.isGlobal then
                  .next { st with
                    callStack := { f with operateStack := s2 } :: rest,
                    globalVars := l2, pc := st.pc + 1 }
                else
                  .next { st with
                    callStack := { f with operateStack := s2, vars := l2 } :: rest,
                    globalVars := g2.getD st.globalVars, pc := st.pc + 1 }
        | .POP =>
          match s with
          | [] => .err (.hostCrash "IndexError")
          | _ :: s2 =>
            .next { st with callStack := { f with operateStack := s2 } :: rest,
                            pc := st.pc + 1 }
        | .DUP =>
          match s with
          | [] => .err (.hostCrash "IndexError")
          | v :: _ =>
            .next { st with callStack := { f with operateStack := v :: s } :: rest,
                            pc := st.pc + 1 }
        | .DUP_TWO =>
          .next { st with callStack := { f with operateStack := s.take 2 ++ s } :: rest,
                          pc := st.pc + 1 }
        | .ROT_TWO =>
          match s with
          | a :: b :: s2 =>
            .next { st with callStack := { f with operateStack := b :: a :: s2 } :: rest,
                            pc := st.pc + 1 }
          | _ => .err (.hostCrash "IndexError")
        | .GLOBAL n =>
          match prog.name_list[n]? with
          | none => .err (.hostCrash "IndexError")
          | some name =>
            let cv2 := varSet cv name .globalRef
            if f.isGlobal then
              .next { st with callStack := f :: rest, globalVars := cv2, pc := st.pc + 1 }
            else
              .next { st with callStack := { f with vars := cv2 } :: rest, pc := st.pc + 1 }
        | .IMPORT _ => .err (.unsupported "IMPORT")
        | .IMPORT_FROM _ => .err (.unsupported "IMPORT_FROM")
        | .IMPORT_STAR => .err (.unsupported "IMPORT_STAR")
        | .BUILD_TABLE k =>
          if s.length < 2 * k then .err (.hostCrash "IndexError") else
          match buildTableLoop [] ((s.take (2 * k)).reverse) with
          | .error e => .err e
          | .ok t =>
            .next { st with
              callStack := { f with operateStack := .table t :: s.drop (2 * k) } :: rest,
              pc := st.pc + 1 }
        | .GET_ATTR | .GET_ITEM =>
          let tkey := if instr = .GET_ATTR then "__getattr__" else "__getitem__"
          match s with
          | arg2 :: arg1 :: s2 =>
            match arg1 with
            | .table es =>
              if !isHashable arg2 then .err (.lvm .TYPE_ERROR) else
              if isClosureV (tableGet es (.str tkey)) then
                code_call iter st (arg2 :: arg1 :: tableGet es (.str tkey) :: s2)
                  (some f) rest 2 (st.pc + 1) true false
              else
                .next { st with
                  callStack := { f with operateStack := tableGet es arg2 :: s2 } :: rest,
                  pc := st.pc + 1 }
            | _ => .err (.lvm .TYPE_ERROR)
          | _ => .err (.hostCrash "IndexError")
        | .SET_ATTR | .SET_ITEM =>
          let tkey := if instr = .SET_ATTR then "__setattr__" else "__setitem__"
          match s with
          | arg3 :: arg2 :: arg1 :: s2 =>
            match arg1 with
            | .table es =>
              if !isHashable arg2 then .err (.lvm .TYPE_ERROR) else
              if isClosureV (tableGet es (.str tkey)) then
                code_call iter st
                  (arg3 :: arg2 :: arg1 :: tableGet es (.str tkey) :: arg1 :: s2)
                  (some f) rest 3 (st.pc + 1) true true
              else
                .next { st with
                  callStack :=
                    { f with operateStack := .table (tableSet es arg2 arg3) :: s2 } :: rest,
                  pc := st.pc + 1 }
            | _ => .err (.lvm .TYPE_ERROR)
          | _ => .err (.hostCrash "IndexError")
        | .FOR target =>
          if f.callFlag then
            match s with
            | [] => .err (.hostCrash "IndexError")
            | top :: s2 =>
              if isNullV top then
                .next { st with
                  callStack := { f with operateStack := s2, callFlag := false } :: rest,
                  pc := target }
              else
                .next { st with
                  callStack := { f with callFlag := false } :: rest, pc := st.pc + 1 }
          else
            code_call iter st s (some { f with callFlag := true }) rest
              0 st.pc false false
        | .NEG =>
          if f.callFlag then
            .next { st with callStack := { f with callFlag := false } :: rest,
                            pc := st.pc + 1 }
          else
            match s with
            | [] => .err (.hostCrash "IndexError")
            | arg1 :: s2 =>
              match arg1 with
              | .table es =>
                if isClosureV (tableGet es (.str "__neg__")) then
                  code_call iter st (arg1 :: tableGet es (.str "__neg__") :: s2)
                    (some { f with callFlag := true }) rest 1 st.pc true false
                else .err (.lvm .TYPE_ERROR)
              | .bool b =>
                .next { st with
                  callStack :=
                    { f with operateStack := .int (-(toIntV (.bool b))) :: s2 } :: rest,
                  pc := st.pc + 1 }
              | .int n =>
                .next { st with
                  callStack := { f with operateStack := .int (-n) :: s2 } :: rest,
                  pc := st.pc + 1 }
              | .float q =>
                .next { st with
                  callStack := { f with operateStack := .float (-q) :: s2 } :: rest,
                  pc := st.pc + 1 }
              | _ => .err (.lvm .TYPE_ERROR)
        | .NOT =>
          match s with
          | [] => .err (.hostCrash "IndexError")
          | .bool b :: s2 =>
            .next { st with
              callStack := { f with operateStack := .bool (!b) :: s2 } :: rest,
              pc := st.pc + 1 }
          | _ => .err (.lvm .TYPE_ERROR)
        | .GET_LEN =>
          if f.callFlag then
            .next { st with callStack := { f with callFlag := false } :: rest,
                            pc := st.pc + 1 }
          else
            match s with
            | [] => .err (.hostCrash "IndexError")
            | arg1 :: s2 =>
              match arg1 with
              | .table es =>
                if isClosureV (tableGet es (.str "__len__")) then
                  code_call iter st (arg1 :: tableGet es (.str "__len__") :: s2)
                    (some { f with callFlag := true }) rest 1 st.pc true false
                else
                  .next { st with
                    callStack :=
                      { f with operateStack := .int es.length :: s2 } :: rest,
                    pc := st.pc + 1 }
              | .str a =>
                .next { st with
                  callStack :=
                    { f with operateStack := .int a.length :: s2 } :: rest,
                  pc := st.pc + 1 }
              | _ => .err (.lvm .TYPE_ERROR)
        | .ADD | .SUB | .MUL | .DIV | .MOD =>
          if f.callFlag then
            .next { st with callStack := { f with callFlag := false } :: rest,
                            pc := st.pc + 1 }
          else
            match s with
            | arg2 :: arg1 :: s2 =>
              match arg1 with
              | .table es =>
                if isClosureV (tableGet es (.str (binaryTableKey instr))) then
                  code_call iter st
                    (arg2 :: arg1 :: tableGet es (.str (binaryTableKey instr)) :: s2)
                    (some { f with callFlag := true }) rest 2 st.pc true false
                else .err (.lvm .TYPE_ERROR)   -- number_only_operator fails on a table
              | _ =>
                if instr = .ADD && isStrV arg1 then
                  if !isStrV arg2 then .err (.lvm .TYPE_ERROR)
                  else
                    match binaryPrimitive instr arg1 arg2 with
                    | .error e => .err e
                    | .ok v =>
                      .next { st with
                        callStack := { f with operateStack := v :: s2 } :: rest,
                        pc := st.pc + 1 }
                else if !numberOnlyOk arg1 arg2 then .err (.lvm .TYPE_ERROR)
                else
                  match binaryPrimitive instr arg1 arg2 with
                  | .error e => .err e
                  | .ok v =>
                    .next { st with
                      callStack := { f with operateStack := v :: s2 } :: rest,
                      pc := st.pc + 1 }
            | _ => .err (.hostCrash "IndexError")
        | .COMPARE_OP k =>
          match cmp_op[k]? with
          | none => .err (.hostCrash "IndexError")
          | some op =>
            if f.callFlag then
              .next { st with callStack := { f with callFlag := false } :: rest,
                              pc := st.pc + 1 }
            else
              match s with
              | arg2 :: arg1 :: s2 =>
                match arg1 with
                | .table es =>
                  if isClosureV (tableGet es (.str (compareOperatorKey op))) then
                    code_call iter st
                      (arg2 :: arg1 :: tableGet es (.str (compareOperatorKey op)) :: s2)
                      (some { f with callFlag := true }) rest 2 st.pc true false
                  else
                    if op = "==" then
                      .next { st with
                        callStack :=
                          { f with operateStack := .bool (pyEq arg1 arg2) :: s2 } :: rest,
                        pc := st.pc + 1 }
                    else if op = "!=" then
                      .next { st with
                        callStack :=
                          { f with operateStack := .bool (!pyEq arg1 arg2) :: s2 } :: rest,
                        pc := st.pc + 1 }
                    else .err (.lvm .TYPE_ERROR)   -- number_only_operator on a table
                | _ =>
                  if op = "==" then
                    .next { st with
                      callStack :=
                        { f with operateStack := .bool (pyEq arg1 arg2) :: s2 } :: rest,
                      pc := st.pc + 1 }
                  else if op = "!=" then
                    .next { st with
                      callStack :=
                        { f with operateStack := .bool (!pyEq arg1 arg2) :: s2 } :: rest,
                      pc := st.pc + 1 }
                  else if !numberOnlyOk arg1 arg2 then .err (.lvm .TYPE_ERROR)
                  else
                    match compareNumeric op arg1 arg2 with
                    | .error e => .err e
                    | .ok v =>
                      .next { st with
                        callStack := { f with operateStack := v :: s2 } :: rest,
                        pc := st.pc + 1 }
              | _ => .err (.hostCrash "IndexError")
        | .IS => .err (.unsupported "host object identity")
        | .JUMP target => .next { st with pc := target }
        | .JUMP_IF_TRUE target =>
          match s with
          | .bool b :: s2 =>
            .next { st with callStack := { f with operateStack := s2 } :: rest,
                            pc := if b then target else st.pc + 1 }
          | [] => .err (.hostCrash "IndexError")
          | _ => .err (.lvm .TYPE_ERROR)
        | .JUMP_IF_FALSE target =>
          match s with
          | .bool b :: s2 =>
            .next { st with callStack := { f with operateStack := s2 } :: rest,
                            pc := if b then st.pc + 1 else target }
          | [] => .err (.hostCrash "IndexError")
          | _ => .err (.lvm .TYPE_ERROR)
        | .JUMP_IF_TRUE_OR_POP target =>
          match s with
          | .bool b :: s2 =>
            if b then .next { st with pc := target }
            else .next { st with callStack := { f with operateStack := s2 } :: rest,
                                 pc := st.pc + 1 }
          | [] => .err (.hostCrash "IndexError")
          | _ => .err (.lvm .TYPE_ERROR)
        | .JUMP_IF_FALSE_OR_POP target =>
          match s with
          | .bool b :: s2 =>
            if b then .next { st with callStack := { f with operateStack := s2 } :: rest,
                                      pc := st.pc + 1 }
            else .next { st with pc := target }
          | [] => .err (.hostCrash "IndexError")
          | _ => .err (.lvm .TYPE_ERROR)
        | .CALL k =>
          code_call iter st s (some f) rest k (st.pc + 1) true false
        | .GOTO k =>
          -- `self.call_stack.pop()` first: the current frame is discarded,
          -- its stack is still the working stack the arguments come from,
          -- and the new frame sits directly on the frames below
          code_call iter st s none rest k (st.pc + 1) true false
        | .RETURN =>
          match s with
          | [] => .err (.hostCrash "IndexError")
          | rv :: _ =>
            match rest with
            | [] => .halt
            | below :: rest2 =>
              let below2 :=
                if f.noReturn then below
                else { below with operateStack := rv :: below.operateStack }
              .next { st with callStack := below2 :: rest2,
                              currentModuleId := f.returnAddress.1,
                              pc := f.returnAddress.2 }

/-- Iterate `step` a given number of times; `none` once the machine has
halted or failed. -/
def afterN (iter : Nat → T_Data) (packages : List CodeProgram) :
    Nat → VMState → Option VMState
  | 0, st => some st
  | n + 1, st =>
    match step iter packages st with
    | .next st2 => afterN iter packages n st2
    | _ => none

/-- How a bounded run ends. -/
inductive RunEnd where
  | halted
  | outOfFuel
  | failed (e : VMErr)
  deriving DecidableEq, Repr

/-- The observable event of the step about to execute: a `STORE name` records
the value being stored (the stack top). -/
def eventOf (packages : List CodeProgram) (st : VMState) : List (String × T_Data) :=
  match fetchInstr packages st with
  | some (.STORE n) =>
    match packages[st.currentModuleId]? with
    | none => []
    | some prog =>
      match prog.name_list[n]?, st.callStack with
      | some name, f :: _ =>
        match f.operateStack with
        | v :: _ => [(name, v)]
        | [] => []
      | _, _ => []
  | _ => []

/-- Run for `fuel` steps collecting the `STORE` events of the steps that
execute, and report how the run ends. -/
def runTrace (iter : Nat → T_Data) (packages : List CodeProgram) :
    Nat → VMState → List (String × T_Data) × RunEnd
  | 0, _ => ([], .outOfFuel)
  | fuel + 1, st =>
    match step iter packages st with
    | .next st2 =>
      let r := runTrace iter packages fuel st2
      (eventOf packages st ++ r.1, r.2)
    | .halt => ([], .halted)
    | .err e => ([], .failed e)

/-- The return address of the current (topmost) frame. -/
def topReturnAddress (st : VMState) : Option (Nat × Nat) :=
  match st.callStack with
  | f :: _ => some f.returnAddress
  | [] => none

/-- The call-stack depth. -/
def callDepth (st : VMState) : Nat := st.callStack.length

/-- The initial machine state of a single-module program, as `LVM.__init__`
builds it (one global stack frame, empty stack, pc 0), except that the
operand stack may be pre-seeded with values for program fragments that state
a property of a single instruction.  Builtin closures take identities 0
and 1, so fresh allocation starts at 2. -/
def initState (stack : List T_Data) : VMState :=
  { callStack :=
      [{ operateStack := stack, returnAddress := (0, 0), noReturn := false,
         callFlag := false, vars := [], isGlobal := true }],
    globalVars := [], moduleId := 0, currentModuleId := 0, pc := 0,
    nextId := 2, hostCalls := 0 }

/-- A host iterator that is never called. -/
def noHost : Nat → T_Data := fun _ => .null

/-- The operand stack of the topmost frame after a successful step. -/
def outTopStack : StepOut → Option (List T_Data)
  | .next st =>
    match st.callStack with
    | f :: _ => some f.operateStack
    | [] => none
  | _ => none

/-- The error of a failed step. -/
def outErr : StepOut → Option VMErr
  | .err e => some e
  | _ => none

/-- The pc after a successful step. -/
def outPc : StepOut → Option Nat
  | .next st => some st.pc
  | _ => none

/-! # Claims

Each claim of the specification audit is settled by one theorem below. -/

/-! ## C1 — prototype lookup through `__base__`

`LVM.run`'s `GET_ATTR`/`GET_ITEM` branch (lvm.py lines 248–265) pushes
`arg1[arg2]`, i.e. `TableData.__getitem__` — the *direct* entry only.
`TableData.get`, which walks the `__base__` chain, exists (lucy_data.py
lines 48–57) but is called from nowhere in the interpreter.  So a member
read of a key that only the base chain holds evaluates to `Null`, not to the
base's value. -/

def c1Base : List (T_Data × T_Data) := [(.str "greet", .str "hi")]

def c1Table : T_Data := .table [(.str "__base__", .table c1Base)]

def c1ProgAttr : CodeProgram :=
  { code_list := [.GET_ATTR], const_list := [], name_list := [] }

def c1ProgItem : CodeProgram :=
  { code_list := [.GET_ITEM], const_list := [], name_list := [] }

set_option maxRecDepth 8000 in
set_option maxHeartbeats 1000000 in
/-- **C1** (code_bug evaluation).  For the table
`t = {"__base__": {"greet": "hi"}}`, the VM's `GET_ATTR` and `GET_ITEM` on
key `"greet"` both push `Null` — although `TableData.get` (the prototype
lookup the spec describes) yields `"hi"` for the same table and key, and
`Null ≠ "hi"`.  The claim that the member read yields the base chain's value
is false of the code: the VM never consults the `__base__` chain. -/
theorem c1_getattr_ignores_base_chain :
    outTopStack (step noHost [c1ProgAttr] (initState [.str "greet", c1Table]))
      = some [T_Data.null] ∧
    outTopStack (step noHost [c1ProgItem] (initState [.str "greet", c1Table]))
      = some [T_Data.null] ∧
    TableData.get [(.str "__base__", .table c1Base)] (.str "greet") = .str "hi" ∧
    T_Data.null ≠ T_Data.str "hi" := by
  refine ⟨?_, ?_, ?_, ?_⟩
  · simp only [step, initState, c1ProgAttr, c1Table, c1Base, noHost]
    simp [tableGet, assocFind, pyEq, isHashable, isNullV, isClosureV, outTopStack]
  · simp only [step, initState, c1ProgItem, c1Table, c1Base, noHost]
    simp [tableGet, assocFind, pyEq, isHashable, isNullV, isClosureV, outTopStack]
  · simp [TableData.get, TableData.getChain, c1Base, tableGet, assocFind, pyEq,
          tSize, tListSize]
  · intro h
    cases h

/-! ## C2 — `GOTO` (tail call)

`LVM.run`'s `GOTO` branch (lvm.py lines 436–439) pops the current frame and
then runs `self.code_call()` with the *default* return pc, `self.pc + 1`
(lvm.py line 455).  The new frame therefore gets return address
`(current_module_id, pc_of_goto + 1)` — an address inside the discarded
function's body — and does *not* inherit the popped frame's return address,
contradicting both the claim and the source's own comment on `OPCodes.GOTO`
(codegen.py line 89: the new frame's return address is to be the current
frame's return address).  The call-stack depth part of the claim does hold:
pop-then-push leaves the depth unchanged. -/

def c2FuncG : FunctionData := { params_num := 0, address := 4, is_closure := false }

def c2FuncF : FunctionData := { params_num := 0, address := 8, is_closure := false }

/-- `main` calls `g` (pc 0–3); `g` executes `goto f();` (pc 4–7); `f` is at
pc 8. -/
def c2Prog : CodeProgram :=
  { code_list :=
      [.LOAD_CONST 0, .CALL 0, .LOAD_CONST 2, .RETURN,
       .LOAD_CONST 1, .GOTO 0, .LOAD_CONST 2, .RETURN,
       .LOAD_CONST 2, .RETURN],
    const_list := [.fn c2FuncG, .fn c2FuncF, .data .null],
    name_list := [] }

/-- **C2** (code_bug evaluation).  After three steps the machine is inside
`g`, whose frame has return address `(0, 2)` (the instruction after `main`'s
`CALL`).  The fourth step executes `g`'s `GOTO`: the machine is then inside
`f`, at unchanged call-stack depth 2, but `f`'s frame has return address
`(0, 6)` — `pc_of_goto + 1`, pointing into the popped function `g`'s body —
instead of inheriting `(0, 2)` as the claim states. -/
theorem c2_goto_return_address_not_inherited :
    ((afterN noHost [c2Prog] 3 (initState [])).bind topReturnAddress) = some (0, 2) ∧
    ((afterN noHost [c2Prog] 4 (initState [])).bind topReturnAddress) = some (0, 6) ∧
    ((afterN noHost [c2Prog] 3 (initState [])).map callDepth) = some 2 ∧
    ((afterN noHost [c2Prog] 4 (initState [])).map callDepth) = some 2 ∧
    ((0, 6) : Nat × Nat) ≠ (0, 2) := by
  refine ⟨rfl, rfl, rfl, rfl, by decide⟩

/-! ## C4 — the reserved-word table of the lexer

`TokenType.reserved_word()` spans the member slice `IF .. FALSE`
(lexer.py lines 118–120), which contains 18 keywords.  `TokenType` declares
no `IMPORT`, `FROM` or `AS` member at all, so the lexer returns an `ID`
token for the words `import`, `from` and `as` — although `parser.py`
(lines 492, 496, 513, 527) dispatches on `TokenType.IMPORT` and
`TokenType.AS`, which do not exist. -/

/-- The 21 words the claim lists. -/
def c4ClaimWords : List String :=
  ["if", "else", "loop", "while", "for", "in", "break", "continue", "goto",
   "return", "global", "import", "from", "as", "func", "null", "true",
   "false", "is", "and", "or"]

/-- **C4** (code_bug evaluation).  Lexing the words `import`, `from` and
`as` produces the `ID` token, not a keyword token; the other 18 words of the
claim's list do lex as their keyword tokens (none of them `ID`). -/
theorem c4_import_from_as_lex_as_id :
    identTokenType "import" = .ID ∧
    identTokenType "from" = .ID ∧
    identTokenType "as" = .ID ∧
    c4ClaimWords.map identTokenType =
      [.IF, .ELSE, .LOOP, .WHILE, .FOR, .IN, .BREAK, .CONTINUE, .GOTO,
       .RETURN, .GLOBAL, .ID, .ID, .ID, .FUNC, .NULL, .TRUE,
       .FALSE, .IS, .AND, .OR] := by
  refine ⟨by decide, by decide, by decide, by decide⟩

/-! ## C9 — the builtin `assert`

`lucy_assert` (lvm.py lines 36–40) raises `LVMError(ErrorCode.ASSERT_ERROR)`
for `Null` or `false` — but `exceptions.py` defines no `ASSERT_ERROR`
member, so the attribute read itself raises `AttributeError`, which the
`ExtendFunction` branch of `code_call` (lvm.py lines 477–484) catches and
re-raises as `EXTEND_FUNCTION_ERROR`.  So `assert(Null)` surfaces as
`EXTEND_FUNCTION_ERROR`, and `ASSERT_ERROR` is not among the defined error
kinds, contradicting the claim. -/

/-- **C9** (code_bug evaluation).  Calling the builtin `assert` on `Null`
or `false` produces `EXTEND_FUNCTION_ERROR` (not an `ASSERT_ERROR`, which no
`ErrorCode` member carries); on a truthy value — and also on `0`, which is
not the object `False` — the argument is returned unchanged. -/
theorem c9_assert_error_kind_undefined :
    extend_call (lucy_assert .null) = .error .EXTEND_FUNCTION_ERROR ∧
    extend_call (lucy_assert (.bool false)) = .error .EXTEND_FUNCTION_ERROR ∧
    extend_call (lucy_assert (.int 0)) = .ok (.int 0) ∧
    extend_call (lucy_assert (.bool true)) = .ok (.bool true) ∧
    extend_call (lucy_assert (.str "")) = .ok (.str "") ∧
    ∀ c : ErrorCode, c.value ≠ "Assert Error" := by
  refine ⟨rfl, rfl, rfl, rfl, rfl, ?_⟩
  intro c
  cases c <;> decide

/-! ## C6 — table null semantics

`TableData.__getitem__` returns `Null` for a missing key;
`TableData.__setitem__` of `Null` deletes the key; every write path of a
table (direct `__setitem__`, the VM's `SET_ATTR`/`SET_ITEM`,
`BUILD_TABLE`'s loop, `table_raw_set`) goes through `tableSet`, so no stored
value is ever `Null`. -/

/-- No stored value of the table is `Null` — the invariant of claim C6. -/
def NoNullValues (t : List (T_Data × T_Data)) : Prop :=
  ∀ p ∈ t, p.2 ≠ T_Data.null

/-- How many entries match a key.  A host `dict` has at most one entry per
key (its keys are pairwise unequal under the host `==`). -/
def matchCount (t : List (T_Data × T_Data)) (k : T_Data) : Nat :=
  (t.filter (fun p => pyEq k p.1)).length

/-- A table with no entry matching `k` reads as `Null` at `k`. -/
lemma tableGet_eq_null_of_no_match (t : List (T_Data × T_Data)) (k : T_Data)
    (h : ∀ p ∈ t, pyEq k p.1 = false) : tableGet t k = .null := by
  induction t with
  | nil => simp [tableGet, assocFind]
  | cons p rest ih =>
    have hp := h p (by simp)
    simp only [tableGet, assocFind, hp]
    simp only [Bool.false_eq_true, if_false]
    exact ih (fun q hq => h q (by simp [hq]))

/-- After `del t[k]` on a table with at most one match, no match remains. -/
lemma removeKey_no_match (t : List (T_Data × T_Data)) (k : T_Data)
    (huniq : matchCount t k ≤ 1) :
    ∀ p ∈ removeKey t k, pyEq k p.1 = false := by
  induction t with
  | nil => simp [removeKey]
  | cons p rest ih =>
    by_cases hp : pyEq k p.1 = true
    · intro q hq
      simp only [removeKey, hp, if_true] at hq
      have hcnt : matchCount (p :: rest) k
          = (rest.filter (fun r => pyEq k r.1)).length + 1 := by
        simp [matchCount, List.filter_cons, hp]
      by_contra hcon
      have hq2 : q ∈ rest.filter (fun r => pyEq k r.1) :=
        List.mem_filter.mpr ⟨hq, by simpa using hcon⟩
      have hpos : 0 < (rest.filter (fun r => pyEq k r.1)).length :=
        List.length_pos.mpr (by intro he; rw [he] at hq2; cases hq2)
      rw [hcnt] at huniq
      omega
    · intro q hq
      have hp2 : pyEq k p.1 = false := by simpa using hp
      simp only [removeKey, hp2, Bool.false_eq_true, if_false] at hq
      rcases List.mem_cons.mp hq with rfl | hq2
      · exact hp2
      · refine ih ?_ q hq2
        have hcnt : matchCount (p :: rest) k = matchCount rest k := by
          simp [matchCount, List.filter_cons, hp2]
        rw [hcnt] at huniq
        exact huniq


/-- Membership after `del t[k]` implies membership before. -/
lemma mem_of_mem_removeKey (t : List (T_Data × T_Data)) (k : T_Data)
    (p : T_Data × T_Data) (hp : p ∈ removeKey t k) : p ∈ t := by
  induction t with
  | nil => simpa [removeKey] using hp
  | cons q rest ih =>
    by_cases hq : pyEq k q.1
    · simp only [removeKey, hq, if_true] at hp
      simp [hp]
    · simp only [removeKey, hq, Bool.false_eq_true, if_false] at hp
      rcases List.mem_cons.mp hp with rfl | hp2
      · simp
      · simp [ih hp2]

/-- Membership after an overwrite/append: the entry is an old one, or its
value is the newly stored one. -/
lemma mem_setKey (t : List (T_Data × T_Data)) (k v : T_Data)
    (p : T_Data × T_Data) (hp : p ∈ setKey t k v) : p ∈ t ∨ p.2 = v := by
  induction t with
  | nil =>
    simp only [setKey, List.mem_singleton] at hp
    right; rw [hp]
  | cons q rest ih =>
    by_cases hq : pyEq k q.1
    · simp only [setKey, hq, if_true] at hp
      rcases List.mem_cons.mp hp with rfl | hp2
      · right; rfl
      · left; simp [hp2]
    · simp only [setKey, hq, Bool.false_eq_true, if_false] at hp
      rcases List.mem_cons.mp hp with rfl | hp2
      · left; simp
      · rcases ih hp2 with h | h
        · left; simp [h]
        · right; exact h

/-- `TableData.__setitem__` preserves the no-null-values invariant. -/
lemma tableSet_noNull (t : List (T_Data × T_Data)) (k v : T_Data)
    (ht : NoNullValues t) : NoNullValues (tableSet t k v) := by
  intro p hp
  by_cases hv : isNullV v
  · simp only [tableSet, hv, if_true] at hp
    exact ht p (mem_of_mem_removeKey t k p hp)
  · simp only [tableSet, hv, Bool.false_eq_true, if_false] at hp
    rcases mem_setKey t k v p hp with h | h
    · exact ht p h
    · rw [h]
      cases v <;> simp_all [isNullV]

/-- The `BUILD_TABLE` insertion loop preserves the invariant. -/
lemma buildTableLoop_noNull :
    ∀ (l : List T_Data) (acc t2 : List (T_Data × T_Data)),
      NoNullValues acc → buildTableLoop acc l = .ok t2 → NoNullValues t2
  | [], acc, t2, hacc, h => by
    simp only [buildTableLoop] at h
    cases h
    exact hacc
  | [_], acc, t2, hacc, h => by
    simp only [buildTableLoop] at h
    exact Except.noConfusion h
  | key :: v :: rest, acc, t2, hacc, h => by
    simp only [buildTableLoop] at h
    by_cases hk : isHashable key
    · rw [if_pos hk] at h
      exact buildTableLoop_noNull rest (tableSet acc key v) t2
        (tableSet_noNull acc key v hacc) h
    · rw [if_neg hk] at h
      cases h

def c6SetProg : CodeProgram :=
  { code_list := [.SET_ITEM], const_list := [], name_list := [] }

set_option maxRecDepth 8000 in
set_option maxHeartbeats 1000000 in
/-- **C6.**  Table null semantics: (i) a key with no matching entry reads as
`Null`; (ii) after `t[k] = Null` the key reads as `Null` and no entry for it
remains (given the host-dict invariant that a key matches at most one
entry); (iii) `__setitem__` with any value preserves the no-null-values
invariant — hence so do the VM's `SET_ATTR`/`SET_ITEM`, which store through
it; (iv) the `BUILD_TABLE` loop builds tables satisfying the invariant;
(v) `table_raw_set` is exactly `__setitem__`; and (vi) the `SET_ITEM`
instruction (no `__setitem__` metamethod present) replaces the table on the
stack by `tableSet t k v`. -/
theorem c6_table_null_semantics (t : List (T_Data × T_Data)) (k v : T_Data)
    (huniq : matchCount t k ≤ 1)
    (hmm : isClosureV (tableGet t (.str "__setitem__")) = false)
    (hk : isHashable k = true) :
    ((∀ p ∈ t, pyEq k p.1 = false) → tableGet t k = .null) ∧
    tableGet (tableSet t k .null) k = .null ∧
    (∀ p ∈ tableSet t k .null, pyEq k p.1 = false) ∧
    (NoNullValues t → NoNullValues (tableSet t k v)) ∧
    (∀ (l : List T_Data) (t2 : List (T_Data × T_Data)),
        buildTableLoop [] l = .ok t2 → NoNullValues t2) ∧
    table_raw_set t k v = tableSet t k v ∧
    outTopStack (step noHost [c6SetProg] (initState [v, k, .table t]))
      = some [.table (tableSet t k v)] := by
  have hdel : ∀ p ∈ tableSet t k .null, pyEq k p.1 = false := by
    simpa [tableSet, isNullV] using removeKey_no_match t k huniq
  refine ⟨tableGet_eq_null_of_no_match t k,
          tableGet_eq_null_of_no_match _ k hdel,
          hdel,
          tableSet_noNull t k v,
          fun l t2 h => buildTableLoop_noNull l [] t2 (by simp [NoNullValues]) h,
          rfl,
          ?_⟩
  simp only [step, initState, c6SetProg, noHost, hk]
  simp [outTopStack, hmm]

/-- Witness for C6 at the table `{"a": 1}`, key `"a"`, value `2` and the
`BUILD_TABLE` pair list `["b", 3]`. -/
theorem c6_table_null_semantics_witness :
    matchCount [(T_Data.str "a", T_Data.int 1)] (.str "a") ≤ 1 ∧
    isClosureV (tableGet [(T_Data.str "a", T_Data.int 1)] (.str "__setitem__")) = false ∧
    isHashable (T_Data.str "a") = true ∧
    (tableGet (tableSet [(T_Data.str "a", T_Data.int 1)] (.str "a") .null) (.str "a")
        = .null ∧
      (∀ p ∈ tableSet [(T_Data.str "a", T_Data.int 1)] (.str "a") (.null : T_Data),
        pyEq (.str "a") p.1 = false) ∧
      outTopStack (step noHost [c6SetProg]
          (initState [.int 2, .str "a", .table [(T_Data.str "a", T_Data.int 1)]]))
        = some [.table (tableSet [(T_Data.str "a", T_Data.int 1)] (.str "a") (.int 2))]) := by
  have h1 : matchCount [(T_Data.str "a", T_Data.int 1)] (.str "a") ≤ 1 := by
    simpa using List.length_filter_le
      (fun p => pyEq (.str "a") p.1) [(T_Data.str "a", T_Data.int 1)]
  have h2 : isClosureV (tableGet [(T_Data.str "a", T_Data.int 1)] (.str "__setitem__"))
      = false := by
    simp [tableGet, assocFind, pyEq, isClosureV]
  have h3 : isHashable (T_Data.str "a") = true := rfl
  have main := c6_table_null_semantics [(T_Data.str "a", T_Data.int 1)]
    (.str "a") (.int 2) h1 h2 h3
  exact ⟨h1, h2, h3, main.2.1, main.2.2.1, main.2.2.2.2.2.2⟩

/-! ## C5 — upvalue write-through on `STORE`

The `STORE` branch (lvm.py lines 173–189): with the local slot not marked
`GlobalReference`, the walk along the `base_closure` chain writes to the
first enclosing variables map that already binds the name, else to the
current locals; the write deletes the binding when the stored value is
`Null`. -/

/-- The index of the first map of the chain binding the name — the claim's
"nearest such enclosing closure". -/
def firstBound : List VarMap → String → Option Nat
  | [], _ => none
  | m :: rest, n =>
    match varLookup m n with
    | some _ => some 0
    | none => (firstBound rest n).map (· + 1)

/-- The chain walk of `store_step` updates exactly the first bound map. -/
lemma chainWrite_eq_firstBound (n : String) (t : T_Data) :
    ∀ chain : List VarMap,
      store_step.chainWrite chain n t =
        (firstBound chain n).map
          (fun i => chain.take i ++ varWrite (chain.getD i []) n t :: chain.drop (i + 1))
  | [] => by simp [store_step.chainWrite, firstBound]
  | m :: rest => by
    cases hm : varLookup m n with
    | some s =>
      simp [store_step.chainWrite, firstBound, hm]
    | none =>
      have ih := chainWrite_eq_firstBound n t rest
      cases hfb : firstBound rest n with
      | none =>
        rw [hfb] at ih
        simp only [Option.map_none'] at ih
        simp [store_step.chainWrite, firstBound, hm, ih, hfb]
      | some i =>
        rw [hfb] at ih
        simp only [Option.map_some'] at ih
        simp [store_step.chainWrite, firstBound, hm, ih, hfb]

/-- **C5.**  `STORE` write-through, for a frame whose local slot for the name
is not marked global (and which has a global closure): (i) when some map on
the `base_closure` chain already binds the name, the store rewrites exactly
the nearest such map, leaving the locals, the other chain maps and the
globals untouched; (ii) when no chain map binds it, the store writes to the
current frame's locals; (iii) the write stores non-null values and deletes
the binding when the value stored is `Null`. -/
theorem c5_store_writethrough (L : VarMap) (chain : List VarMap) (G : VarMap)
    (name : String) (v : T_Data)
    (hng : varLookup L name ≠ some .globalRef) :
    (∀ i, firstBound chain name = some i →
        store_step L chain (some G) name v =
          some (L, chain.take i ++ varWrite (chain.getD i []) name v :: chain.drop (i + 1),
                some G)) ∧
    (firstBound chain name = none →
        store_step L chain (some G) name v = some (varWrite L name v, chain, some G)) ∧
    (∀ m : VarMap, varWrite m name (.null : T_Data) = varErase m name) ∧
    (∀ (m : VarMap) (w : T_Data), isNullV w = false →
        varWrite m name w = varSet m name (.val w)) := by
  have hcw := chainWrite_eq_firstBound name v chain
  have hbranch :
      store_step L chain (some G) name v =
        match store_step.chainWrite chain name v with
        | some chain2 => some (L, chain2, some G)
        | none => some (varWrite L name v, chain, some G) := by
    cases hL : varLookup L name with
    | none => simp [store_step, hL]
    | some s =>
      cases s with
      | globalRef => exact absurd hL hng
      | val w => simp [store_step, hL]
  refine ⟨?_, ?_, ?_, ?_⟩
  · intro i hi
    rw [hbranch, hcw, hi]
    simp
  · intro hnone
    rw [hbranch, hcw, hnone]
    simp
  · intro m
    simp [varWrite, isNullV]
  · intro m w hw
    simp [varWrite, hw]

/-- Witness for C5: locals `{}` (name unbound, not global-marked), chain
`[{x ↦ 1}]`, storing `5` and storing `Null`. -/
theorem c5_store_writethrough_witness :
    varLookup [] "x" ≠ some .globalRef ∧
    store_step [] [[("x", Slot.val (.int 1))]] (some []) "x" (.int 5) =
      some ([], [[("x", Slot.val (.int 5))]], some []) ∧
    store_step [] [[("x", Slot.val (.int 1))]] (some []) "x" .null =
      some ([], [[]], some []) := by
  have hng : varLookup [] "x" ≠ some .globalRef := by
    simp [varLookup]
  have main := c5_store_writethrough [] [[("x", Slot.val (.int 1))]] [] "x" (.int 5) hng
  have main0 := c5_store_writethrough [] [[("x", Slot.val (.int 1))]] [] "x" .null hng
  have hfb : firstBound [[("x", Slot.val (.int 1))]] "x" = some 0 := by
    simp [firstBound, varLookup]
  refine ⟨hng, ?_, ?_⟩
  · have := main.1 0 hfb
    simpa [varWrite, varSet, isNullV] using this
  · have := main0.1 0 hfb
    simpa [varWrite, varErase, isNullV] using this

/-! ## C3 — short-circuit `and`/`or`

`JUMP_IF_TRUE_OR_POP`/`JUMP_IF_FALSE_OR_POP` (lvm.py lines 417–432) start
with `self.check_type(arg, (BooleanData,))`: a non-boolean left operand
raises `TYPE_ERROR`, contradicting the claim that any operand value passes
through.  For boolean operands the short-circuit behaviour is as described:
the deciding operand is left on the stack and the jump taken, otherwise it
is popped and evaluation falls through to the right operand. -/

def c3Prog : CodeProgram :=
  { code_list := [.JUMP_IF_FALSE_OR_POP 0], const_list := [], name_list := [] }

def c3ProgT : CodeProgram :=
  { code_list := [.JUMP_IF_TRUE_OR_POP 0], const_list := [], name_list := [] }

/-- **C3** (counterexample).  Evaluating `1 and e` — the compiled
`JUMP_IF_FALSE_OR_POP` with the integer `1` as the left operand — raises
`TYPE_ERROR`; likewise `1 or e`.  The claim that no `TYPE_ERROR` is raised
for a non-boolean left operand is false of the code. -/
theorem c3_nonbool_type_error :
    outErr (step noHost [c3Prog] (initState [.int 1])) = some (.lvm .TYPE_ERROR) ∧
    outErr (step noHost [c3ProgT] (initState [.int 1])) = some (.lvm .TYPE_ERROR) :=
  ⟨rfl, rfl⟩

/-- **C3** (amended).  The short-circuit opcodes require a boolean left
operand, raising `TYPE_ERROR` for every other value; for a boolean operand
`v`: `v and e` short-circuits keeping `v` itself on the stack when `v` is
`false` (jump to the join label) and pops `v` to evaluate `e` when it is
`true`; `v or e` symmetrically. -/
theorem c3_short_circuit_boolean (iter : Nat → T_Data) (packages : List CodeProgram)
    (st : VMState) (f : Frame) (rest : List Frame) (t : Nat) (v : T_Data)
    (s2 : List T_Data)
    (hcs : st.callStack = f :: rest) (hstk : f.operateStack = v :: s2) :
    (fetchInstr packages st = some (.JUMP_IF_FALSE_OR_POP t) →
      step iter packages st =
        match v with
        | .bool true =>
          .next { st with callStack := { f with operateStack := s2 } :: rest,
                          pc := st.pc + 1 }
        | .bool false => .next { st with pc := t }
        | _ => .err (.lvm .TYPE_ERROR)) ∧
    (fetchInstr packages st = some (.JUMP_IF_TRUE_OR_POP t) →
      step iter packages st =
        match v with
        | .bool true => .next { st with pc := t }
        | .bool false =>
          .next { st with callStack := { f with operateStack := s2 } :: rest,
                          pc := st.pc + 1 }
        | _ => .err (.lvm .TYPE_ERROR)) := by
  constructor
  all_goals
    intro hf
    rcases hp : packages[st.currentModuleId]? with _ | prog
    · simp [fetchInstr, hp] at hf
    · simp only [fetchInstr, hp] at hf
      cases v with
      | bool b =>
        cases b <;> simp [step, hcs, hp, hf, hstk]
      | _ => simp [step, hcs, hp, hf, hstk]

/-- Witness for C3's amended theorem: the compiled `false and e` keeps
`false` on the stack and jumps. -/
theorem c3_short_circuit_boolean_witness :
    (initState [.bool false]).callStack =
      ({ operateStack := [.bool false], returnAddress := (0, 0), noReturn := false,
         callFlag := false, vars := [], isGlobal := true } : Frame) :: [] ∧
    fetchInstr [c3Prog] (initState [.bool false]) = some (.JUMP_IF_FALSE_OR_POP 0) ∧
    step noHost [c3Prog] (initState [.bool false]) =
      .next { initState [.bool false] with pc := 0 } := by
  refine ⟨rfl, rfl, ?_⟩
  have main := (c3_short_circuit_boolean noHost [c3Prog] (initState [.bool false])
    { operateStack := [.bool false], returnAddress := (0, 0), noReturn := false,
      callFlag := false, vars := [], isGlobal := true } [] 0 (.bool false) []
    rfl rfl).1 rfl
  simpa using main

/-! ## C8 — strict numeric typing of binary arithmetic

`number_only_operator` (lvm.py lines 127–135) rejects an `Int`/`Float` mix
in either order, so `ADD`/`SUB`/`MUL`/`DIV`/`MOD` raise `TYPE_ERROR` on such
operands (the metamethod dispatch applies only to a table left operand).
`DIV` on two `Int`s is the host's floor division `//`; on two `Float`s the
host's true division `/` — embedded exactly on rationals, with the host's
`ZeroDivisionError` at a zero divisor. -/

/-- The five arithmetic opcodes the claim ranges over. -/
def isBinaryArith : OPCode → Bool
  | .ADD | .SUB | .MUL | .DIV | .MOD => true
  | _ => false

/-- **C8.**  For a step whose instruction is one of
`ADD`/`SUB`/`MUL`/`DIV`/`MOD` (frame not resuming a metamethod call):
(i) an `Int` left operand with a `Float` right operand raises `TYPE_ERROR`,
and (ii) so does a `Float` left operand with an `Int` right operand;
(iii) `DIV` on two `Int`s pushes the floor quotient `Int.fdiv a b`
(nonzero divisor); (iv) `DIV` on two `Float`s pushes the host float quotient
`a / b` (nonzero divisor). -/
theorem c8_strict_numeric_arith (iter : Nat → T_Data) (packages : List CodeProgram)
    (st : VMState) (f : Frame) (rest : List Frame) (op : OPCode)
    (hcs : st.callStack = f :: rest) (hflag : f.callFlag = false)
    (hfetch : fetchInstr packages st = some op) :
    (∀ (n : Int) (q : ℚ) (s2 : List T_Data), isBinaryArith op = true →
      f.operateStack = .float q :: .int n :: s2 →
      step iter packages st = .err (.lvm .TYPE_ERROR)) ∧
    (∀ (n : Int) (q : ℚ) (s2 : List T_Data), isBinaryArith op = true →
      f.operateStack = .int n :: .float q :: s2 →
      step iter packages st = .err (.lvm .TYPE_ERROR)) ∧
    (∀ (a b : Int) (s2 : List T_Data), op = .DIV → b ≠ 0 →
      f.operateStack = .int b :: .int a :: s2 →
      step iter packages st =
        .next { st with
          callStack := { f with operateStack := .int (Int.fdiv a b) :: s2 } :: rest,
          pc := st.pc + 1 }) ∧
    (∀ (a b : ℚ) (s2 : List T_Data), op = .DIV → b ≠ 0 →
      f.operateStack = .float b :: .float a :: s2 →
      step iter packages st =
        .next { st with
          callStack := { f with operateStack := .float (a / b) :: s2 } :: rest,
          pc := st.pc + 1 }) := by
  rcases hp : packages[st.currentModuleId]? with _ | prog
  · rw [fetchInstr, hp] at hfetch
    exact Option.noConfusion hfetch
  · simp only [fetchInstr, hp] at hfetch
    refine ⟨?_, ?_, ?_, ?_⟩
    · intro n q s2 hop hstk
      cases op <;> simp [isBinaryArith] at hop <;>
        simp [step, hcs, hp, hfetch, hstk, hflag, numberOnlyOk,
              isIntInstance, isFloatV, isStrV]
    · intro n q s2 hop hstk
      cases op <;> simp [isBinaryArith] at hop <;>
        simp [step, hcs, hp, hfetch, hstk, hflag, numberOnlyOk,
              isIntInstance, isFloatV, isStrV]
    · intro a b s2 hop hb hstk
      subst hop
      simp [step, hcs, hp, hfetch, hstk, hflag, numberOnlyOk,
            isIntInstance, isFloatV, isStrV, binaryPrimitive, toIntV, hb]
    · intro a b s2 hop hb hstk
      subst hop
      simp [step, hcs, hp, hfetch, hstk, hflag, numberOnlyOk,
            isIntInstance, isFloatV, isStrV, binaryPrimitive, toIntV, hb]

/-- Witness for C8: `1 + 2.0` raises `TYPE_ERROR`; `-7 / 2` is the floor
quotient `-4`; `1.0 / 2.0` is `0.5`. -/
theorem c8_strict_numeric_arith_witness :
    ((initState [.float 2, .int 1]).callStack =
      ({ operateStack := [.float 2, .int 1], returnAddress := (0, 0), noReturn := false,
         callFlag := false, vars := [], isGlobal := true } : Frame) :: []) ∧
    step noHost [{ code_list := [.ADD], const_list := [], name_list := [] }]
      (initState [.float 2, .int 1]) = .err (.lvm .TYPE_ERROR) ∧
    step noHost [{ code_list := [.DIV], const_list := [], name_list := [] }]
      (initState [.int 2, .int (-7)]) =
      .next { initState [.int 2, .int (-7)] with
        callStack :=
          [{ operateStack := [.int (-4)], returnAddress := (0, 0), noReturn := false,
             callFlag := false, vars := [], isGlobal := true }],
        pc := 1 } ∧
    step noHost [{ code_list := [.DIV], const_list := [], name_list := [] }]
      (initState [.float 2, .float 1]) =
      .next { initState [.float 2, .float 1] with
        callStack :=
          [{ operateStack := [.float (1 / 2)], returnAddress := (0, 0), noReturn := false,
             callFlag := false, vars := [], isGlobal := true }],
        pc := 1 } := by
  refine ⟨rfl, ?_, ?_, ?_⟩
  · exact (c8_strict_numeric_arith noHost
      [{ code_list := [.ADD], const_list := [], name_list := [] }]
      (initState [.float 2, .int 1]) _ [] .ADD rfl rfl rfl).1 1 2 [] rfl rfl
  · have h := (c8_strict_numeric_arith noHost
      [{ code_list := [.DIV], const_list := [], name_list := [] }]
      (initState [.int 2, .int (-7)]) _ [] .DIV rfl rfl rfl).2.2.1 (-7) 2 [] rfl
      (by decide) rfl
    simpa using h
  · have h := (c8_strict_numeric_arith noHost
      [{ code_list := [.DIV], const_list := [], name_list := [] }]
      (initState [.float 2, .float 1]) _ [] .DIV rfl rfl rfl).2.2.2 1 2 [] rfl
      (by norm_num) rfl
    simpa using h

/-! ## C10 — equality across types, ordering only on numbers

`COMPARE_OP` (lvm.py lines 365–396): `==`/`!=` skip `number_only_operator`
and evaluate the host `==`, which never raises — but the host compares
numbers *across* the `bool`/`int`/`float` type tags (`1 == 1.0` and
`True == 1` hold), so operands of different Lucy types are not always
unequal.  The orderings run `number_only_operator`, which accepts booleans
as `Int` instances (host subclassing), so `true < 2` evaluates instead of
raising `TYPE_ERROR`. -/

/-- Whether the left operand is a table carrying a callable metamethod under
the given key. -/
def leftCmpMeta (v : T_Data) (key : String) : Bool :=
  match v with
  | .table es => isClosureV (tableGet es (.str key))
  | _ => false

/-- The numeric value of a number operand (defaulting, never used otherwise). -/
def ratOf (v : T_Data) : ℚ := (toRatNum v).getD 0

/-- The boolean the host comparison yields once `number_only_operator`
passed. -/
def cmpNumB (op : String) (a b : ℚ) : Bool :=
  if op = "<" then a < b
  else if op = "<=" then a ≤ b
  else if op = ">" then a > b
  else a ≥ b

def c10ProgEq : CodeProgram :=
  { code_list := [.COMPARE_OP 2], const_list := [], name_list := [] }

def c10ProgLt : CodeProgram :=
  { code_list := [.COMPARE_OP 0], const_list := [], name_list := [] }

/-- **C10** (counterexample).  `1 == 1.0` evaluates to `true` although `1`
has Lucy type `int` and `1.0` Lucy type `float` — the claim says operands
of different types compare unequal; and `true < 2` evaluates (to `true`)
without raising although the operands are not both `Int`s nor both
`Float`s — the claim says `TYPE_ERROR`. -/
theorem c10_cross_type_counterexample :
    outTopStack (step noHost [c10ProgEq] (initState [.float 1, .int 1]))
      = some [.bool true] ∧
    outTopStack (step noHost [c10ProgLt] (initState [.int 2, .bool true]))
      = some [.bool true] ∧
    lucy_type (.int 1) = .ok (.str "int") ∧
    lucy_type (.float 1) = .ok (.str "float") ∧
    lucy_type (.bool true) = .ok (.str "bool") := by
  refine ⟨?_, ?_, rfl, rfl, rfl⟩
  · simp [step, initState, c10ProgEq, noHost, outTopStack, cmp_op, pyEq, toRatNum]
  · simp [step, initState, c10ProgLt, noHost, outTopStack, cmp_op,
          numberOnlyOk, isIntInstance, compareNumeric, toRatNum]

/-- Cross-type inequality under the host `==`, except between numbers:
values of different Lucy types that are not both numbers compare unequal. -/
lemma pyEq_cross_type_false (v1 v2 : T_Data)
    (h1 : lucy_type v1 ≠ lucy_type v2)
    (h2 : ¬((toRatNum v1).isSome ∧ (toRatNum v2).isSome)) :
    pyEq v1 v2 = false := by
  cases v1 <;> cases v2 <;> simp_all [pyEq, toRatNum, lucy_type]

/-- **C10** (amended).  For a `COMPARE_OP` step (frame not resuming a
metamethod call, left operand without the matching metamethod):
(i) `==` always succeeds, pushing the host equality `pyEq`; (ii) `!=`
always succeeds, pushing its negation; (iii) an ordering raises
`TYPE_ERROR` exactly when the operands fail `number_only_operator` — both
must be `Int` instances (booleans included) or both `Float`s; (iv) when
they pass, the ordering pushes the numeric comparison; and (v) `pyEq` is
`false` on operands of different Lucy types unless both are numbers. -/
theorem c10_compare_semantics (iter : Nat → T_Data) (packages : List CodeProgram)
    (st : VMState) (f : Frame) (rest : List Frame) (k : Nat)
    (arg1 arg2 : T_Data) (s2 : List T_Data)
    (hcs : st.callStack = f :: rest) (hflag : f.callFlag = false)
    (hfetch : fetchInstr packages st = some (.COMPARE_OP k))
    (hstk : f.operateStack = arg2 :: arg1 :: s2) :
    (k = 2 → leftCmpMeta arg1 "__eq__" = false →
      step iter packages st =
        .next { st with
          callStack := { f with operateStack := .bool (pyEq arg1 arg2) :: s2 } :: rest,
          pc := st.pc + 1 }) ∧
    (k = 3 → leftCmpMeta arg1 "__ne__" = false →
      step iter packages st =
        .next { st with
          callStack := { f with operateStack := .bool (!pyEq arg1 arg2) :: s2 } :: rest,
          pc := st.pc + 1 }) ∧
    (∀ op, (k = 0 ∧ op = "<") ∨ (k = 1 ∧ op = "<=") ∨
           (k = 4 ∧ op = ">") ∨ (k = 5 ∧ op = ">=") →
      leftCmpMeta arg1 (compareOperatorKey op) = false →
      (numberOnlyOk arg1 arg2 = false →
        step iter packages st = .err (.lvm .TYPE_ERROR)) ∧
      (numberOnlyOk arg1 arg2 = true →
        step iter packages st =
          .next { st with
            callStack :=
              { f with operateStack :=
                  .bool (cmpNumB op (ratOf arg1) (ratOf arg2)) :: s2 } :: rest,
            pc := st.pc + 1 })) ∧
    (∀ v1 v2 : T_Data, lucy_type v1 ≠ lucy_type v2 →
      ¬((toRatNum v1).isSome ∧ (toRatNum v2).isSome) → pyEq v1 v2 = false) := by
  rcases hp : packages[st.currentModuleId]? with _ | prog
  · rw [fetchInstr, hp] at hfetch
    exact Option.noConfusion hfetch
  · simp only [fetchInstr, hp] at hfetch
    refine ⟨?_, ?_, ?_, fun v1 v2 => pyEq_cross_type_false v1 v2⟩
    · intro hk hmeta
      subst hk
      cases arg1 <;>
        simp_all [step, hcs, hp, hstk, hflag, cmp_op, leftCmpMeta, compareOperatorKey]
    · intro hk hmeta
      subst hk
      cases arg1 <;>
        simp_all [step, hcs, hp, hstk, hflag, cmp_op, leftCmpMeta, compareOperatorKey]
    · intro op hop hmeta
      constructor
      · intro hnum
        rcases hop with ⟨hk, hopv⟩ | ⟨hk, hopv⟩ | ⟨hk, hopv⟩ | ⟨hk, hopv⟩ <;>
          subst hk <;> subst hopv <;>
          cases arg1 <;>
            simp_all [step, hcs, hp, hstk, hflag, cmp_op, leftCmpMeta,
                      compareOperatorKey, numberOnlyOk, isIntInstance, isFloatV]
      · intro hnum
        rcases hop with ⟨hk, hopv⟩ | ⟨hk, hopv⟩ | ⟨hk, hopv⟩ | ⟨hk, hopv⟩ <;>
          subst hk <;> subst hopv <;>
          cases arg1 <;> cases arg2 <;>
            simp_all [step, hcs, hp, hstk, hflag, cmp_op, leftCmpMeta,
                      compareOperatorKey, numberOnlyOk, isIntInstance, isFloatV,
                      compareNumeric, toRatNum, cmpNumB, ratOf]

/-- Witness for C10's amended theorem: `1 == 1.0` pushes `pyEq 1 1.0`. -/
theorem c10_compare_semantics_witness :
    fetchInstr [c10ProgEq] (initState [.float 1, .int 1]) = some (.COMPARE_OP 2) ∧
    leftCmpMeta (.int 1) "__eq__" = false ∧
    (initState [.float 1, .int 1]).callStack =
      ({ operateStack := [.float 1, .int 1], returnAddress := (0, 0), noReturn := false,
         callFlag := false, vars := [], isGlobal := true } : Frame) :: [] ∧
    step noHost [c10ProgEq] (initState [.float 1, .int 1]) =
      .next { initState [.float 1, .int 1] with
        callStack :=
          [{ operateStack := [.bool (pyEq (.int 1) (.float 1))], returnAddress := (0, 0),
             noReturn := false, callFlag := false, vars := [], isGlobal := true }],
        pc := 1 } := by
  refine ⟨rfl, rfl, rfl, ?_⟩
  have h := (c10_compare_semantics noHost [c10ProgEq] (initState [.float 1, .int 1])
      { operateStack := [.float 1, .int 1], returnAddress := (0, 0), noReturn := false,
        callFlag := false, vars := [], isGlobal := true } [] 2 (.int 1) (.float 1) []
      rfl rfl rfl rfl).1 rfl rfl
  simpa using h

/-! ## C7 — the iterator protocol of `for`

The compiled shape of `for x in e { }` (codegen.py lines 254–273) with an
empty body, the iterator pre-evaluated on the stack:

```
0: FOR 3       ; Lcont
1: STORE x
2: JUMP 0
3: POP         ; Lbreak: discard iterator
4: LOAD_CONST Null
5: RETURN
```

The iterator is an `ExtendFunction` closure of arity zero whose successive
results are the parameter `iter` of the machine (call number ↦ value) — the
behaviour of an arbitrary stateful zero-argument closure.  `FOR` (lvm.py
lines 286–295) first arranges the call with `call_flag` set and return pc
pointing back at itself; on resumption it inspects the returned value:
`Null` pops it and jumps to `Lbreak`, anything else is left for `STORE`. -/

/-- The iterator closure value (`ExtendFunction` with `params_num = 0`,
host id 2). -/
def c7Iter : T_Data := .closure 2 0 (.extend 0 2)

def forProg : CodeProgram :=
  { code_list := [.FOR 3, .STORE 0, .JUMP 0, .POP, .LOAD_CONST 0, .RETURN],
    const_list := [.data .null], name_list := ["x"] }

/-- The state at `Lcont` with the iterator on the stack, `k` iterator calls
made so far and globals `g`. -/
def loopState (k : Nat) (g : VarMap) : VMState :=
  { callStack :=
      [{ operateStack := [c7Iter], returnAddress := (0, 0), noReturn := false,
         callFlag := false, vars := [], isGlobal := true }],
    globalVars := g, moduleId := 0, currentModuleId := 0, pc := 0,
    nextId := 2, hostCalls := k }

/-- After `FOR` dispatched the zero-argument call: the value `v` the host
returned sits above the iterator, `call_flag` is set, the pc is back at the
`FOR`. -/
def c7AfterCall (v : T_Data) (k : Nat) (g : VarMap) : VMState :=
  { callStack :=
      [{ operateStack := [v, c7Iter], returnAddress := (0, 0), noReturn := false,
         callFlag := true, vars := [], isGlobal := true }],
    globalVars := g, moduleId := 0, currentModuleId := 0, pc := 0,
    nextId := 2, hostCalls := k }

/-- `FOR` resumed on a non-null value: fallen through to the `STORE`. -/
def c7BeforeStore (v : T_Data) (k : Nat) (g : VarMap) : VMState :=
  { callStack :=
      [{ operateStack := [v, c7Iter], returnAddress := (0, 0), noReturn := false,
         callFlag := false, vars := [], isGlobal := true }],
    globalVars := g, moduleId := 0, currentModuleId := 0, pc := 1,
    nextId := 2, hostCalls := k }

/-- After the `STORE`: value consumed, about to `JUMP` back. -/
def c7AfterStore (k : Nat) (g : VarMap) : VMState :=
  { callStack :=
      [{ operateStack := [c7Iter], returnAddress := (0, 0), noReturn := false,
         callFlag := false, vars := [], isGlobal := true }],
    globalVars := g, moduleId := 0, currentModuleId := 0, pc := 2,
    nextId := 2, hostCalls := k }

/-- `FOR` resumed on `Null`: value popped, jumped to `Lbreak` (the `POP`). -/
def c7AtBreak (k : Nat) (g : VarMap) : VMState :=
  { callStack :=
      [{ operateStack := [c7Iter], returnAddress := (0, 0), noReturn := false,
         callFlag := false, vars := [], isGlobal := true }],
    globalVars := g, moduleId := 0, currentModuleId := 0, pc := 3,
    nextId := 2, hostCalls := k }

def c7AtLoad (k : Nat) (g : VarMap) : VMState :=
  { callStack :=
      [{ operateStack := [], returnAddress := (0, 0), noReturn := false,
         callFlag := false, vars := [], isGlobal := true }],
    globalVars := g, moduleId := 0, currentModuleId := 0, pc := 4,
    nextId := 2, hostCalls := k }

def c7AtReturn (k : Nat) (g : VarMap) : VMState :=
  { callStack :=
      [{ operateStack := [.null], returnAddress := (0, 0), noReturn := false,
         callFlag := false, vars := [], isGlobal := true }],
    globalVars := g, moduleId := 0, currentModuleId := 0, pc := 5,
    nextId := 2, hostCalls := k }

lemma c7_stepA (iter : Nat → T_Data) (k : Nat) (g : VarMap) :
    step iter [forProg] (loopState k g) = .next (c7AfterCall (iter k) (k + 1) g) := rfl

lemma c7_stepB (iter : Nat → T_Data) (v : T_Data) (k : Nat) (g : VarMap)
    (hv : isNullV v = false) :
    step iter [forProg] (c7AfterCall v k g) = .next (c7BeforeStore v k g) := by
  simp [step, c7AfterCall, c7BeforeStore, forProg, hv]

lemma c7_stepB_null (iter : Nat → T_Data) (k : Nat) (g : VarMap) :
    step iter [forProg] (c7AfterCall .null k g) = .next (c7AtBreak k g) := rfl

lemma c7_stepC (iter : Nat → T_Data) (v : T_Data) (k : Nat) (g : VarMap)
    (hv : isNullV v = false) (hg : varLookup g "x" ≠ some .globalRef) :
    step iter [forProg] (c7BeforeStore v k g)
      = .next (c7AfterStore k (varSet g "x" (.val v))) := by
  rcases hL : varLookup g "x" with _ | s
  · simp [step, c7BeforeStore, c7AfterStore, forProg, store_step,
          store_step.chainWrite, hL, varWrite, hv]
  · cases s with
    | globalRef => exact absurd hL hg
    | val w =>
      simp [step, c7BeforeStore, c7AfterStore, forProg, store_step,
            store_step.chainWrite, hL, varWrite, hv]

lemma c7_stepD (iter : Nat → T_Data) (k : Nat) (g : VarMap) :
    step iter [forProg] (c7AfterStore k g) = .next (loopState k g) := rfl

lemma c7_stepPop (iter : Nat → T_Data) (k : Nat) (g : VarMap) :
    step iter [forProg] (c7AtBreak k g) = .next (c7AtLoad k g) := rfl

lemma c7_stepLoad (iter : Nat → T_Data) (k : Nat) (g : VarMap) :
    step iter [forProg] (c7AtLoad k g) = .next (c7AtReturn k g) := rfl

lemma c7_stepReturn (iter : Nat → T_Data) (k : Nat) (g : VarMap) :
    step iter [forProg] (c7AtReturn k g) = .halt := rfl

lemma runTrace_next (iter : Nat → T_Data) (pkgs : List CodeProgram) (fuel : Nat)
    (st st2 : VMState) (h : step iter pkgs st = .next st2) :
    runTrace iter pkgs (fuel + 1) st =
      (eventOf pkgs st ++ (runTrace iter pkgs fuel st2).1,
       (runTrace iter pkgs fuel st2).2) := by
  simp [runTrace, h]

lemma runTrace_halt (iter : Nat → T_Data) (pkgs : List CodeProgram) (fuel : Nat)
    (st : VMState) (h : step iter pkgs st = .halt) :
    runTrace iter pkgs (fuel + 1) st = ([], .halted) := by
  simp [runTrace, h]

lemma isNullV_false_of_ne (v : T_Data) (h : v ≠ .null) : isNullV v = false := by
  cases v <;> simp_all [isNullV]

lemma varLookup_varSet_self (m : VarMap) (n : String) (s : Slot) :
    varLookup (varSet m n s) n = some s := by
  induction m with
  | nil => simp [varSet, varLookup]
  | cons p rest ih =>
    rcases p with ⟨pn, ps⟩
    by_cases hpn : pn = n
    · simp [varSet, varLookup, hpn]
    · simp [varSet, varLookup, hpn, ih]

/-- Running the compiled `for` loop from `Lcont`: while the iterator yields
non-null values the machine stores them one by one under `x`, and on the
first `Null` it discards the iterator and halts; the `STORE` trace is exactly
the yielded prefix. -/
lemma c7_loop (iter : Nat → T_Data) :
    ∀ (n k : Nat) (g : VarMap),
      (∀ j, j < n → iter (k + j) ≠ .null) →
      iter (k + n) = .null →
      varLookup g "x" ≠ some .globalRef →
      runTrace iter [forProg] (4 * n + 5) (loopState k g) =
        ((List.range n).map (fun j => ("x", iter (k + j))), .halted) := by
  intro n
  induction n with
  | zero =>
    intro k g hnn hnull hg
    simp only [Nat.add_zero] at hnull
    rw [show 4 * 0 + 5 = 4 + 1 from rfl]
    rw [runTrace_next _ _ 4 _ _ (c7_stepA iter k g), hnull]
    rw [show (4 : Nat) = 3 + 1 from rfl]
    rw [runTrace_next _ _ 3 _ _ (c7_stepB_null iter (k + 1) g)]
    rw [show (3 : Nat) = 2 + 1 from rfl]
    rw [runTrace_next _ _ 2 _ _ (c7_stepPop iter (k + 1) g)]
    rw [show (2 : Nat) = 1 + 1 from rfl]
    rw [runTrace_next _ _ 1 _ _ (c7_stepLoad iter (k + 1) g)]
    rw [show (1 : Nat) = 0 + 1 from rfl]
    rw [runTrace_halt _ _ 0 _ (c7_stepReturn iter (k + 1) g)]
    simp [eventOf, fetchInstr, forProg, loopState, c7AfterCall, c7AtBreak,
          c7AtLoad, c7AtReturn]
  | succ n ih =>
    intro k g hnn hnull hg
    have hvk : iter k ≠ .null := by
      have := hnn 0 (by omega)
      simpa using this
    have hv : isNullV (iter k) = false := isNullV_false_of_ne _ hvk
    have e : 4 * (n + 1) + 5 = (((4 * n + 5) + 1) + 1 + 1) + 1 := by ring
    rw [e]
    rw [runTrace_next _ _ _ _ _ (c7_stepA iter k g)]
    rw [runTrace_next _ _ _ _ _ (c7_stepB iter (iter k) (k + 1) g hv)]
    rw [runTrace_next _ _ _ _ _ (c7_stepC iter (iter k) (k + 1) g hv hg)]
    rw [runTrace_next _ _ _ _ _ (c7_stepD iter (k + 1) (varSet g "x" (.val (iter k))))]
    have hg2 : varLookup (varSet g "x" (.val (iter k))) "x" ≠ some .globalRef := by
      rw [varLookup_varSet_self]
      simp
    have hnn2 : ∀ j, j < n → iter ((k + 1) + j) ≠ .null := by
      intro j hj
      have := hnn (j + 1) (by omega)
      have harith : k + (j + 1) = (k + 1) + j := by omega
      rwa [harith] at this
    have hnull2 : iter ((k + 1) + n) = .null := by
      have harith : k + (n + 1) = (k + 1) + n := by omega
      rwa [harith] at hnull
    rw [ih (k + 1) (varSet g "x" (.val (iter k))) hnn2 hnull2 hg2]
    have hev : (List.range (n + 1)).map (fun j => ("x", iter (k + j)))
        = ("x", iter k) :: (List.range n).map (fun j => ("x", iter ((k + 1) + j))) := by
      rw [List.range_succ_eq_map]
      simp only [List.map_cons, List.map_map, Nat.add_zero]
      congr 1
      apply List.map_congr_left
      intro j hj
      have harith : k + (j + 1) = (k + 1) + j := by omega
      simp [Function.comp, harith]
    rw [hev]
    simp [eventOf, fetchInstr, forProg, loopState, c7AfterCall, c7BeforeStore,
          c7AfterStore]

lemma range_map_getD (vs : List T_Data) :
    (List.range vs.length).map (fun j => (("x" : String), vs.getD j .null))
      = vs.map (fun v => ("x", v)) := by
  apply List.ext_getElem
  · simp
  · intro i h1 h2
    simp only [List.getElem_map, List.getElem_range]
    rw [List.getD_eq_getElem vs .null (by simpa using h1)]

set_option maxRecDepth 8000 in
set_option maxHeartbeats 1000000 in
/-- **C7.**  The iterator protocol: (i) for a zero-argument iterator closure
that yields the non-null values `vs` and then `Null`, running the compiled
`for x in c { }` loop halts and its `STORE x` trace is exactly `vs` in
order — the body slot executes once per yielded value, with `x` bound to
`v1, …, vn` in order; (ii) the `FOR` opcode, resumed with `call_flag` set,
pops the returned value and jumps to the break target when it is `Null`,
and otherwise leaves it on the stack for the `STORE` and falls through. -/
theorem c7_for_iterator_protocol (vs : List T_Data) (hvs : ∀ v ∈ vs, v ≠ .null) :
    (runTrace (fun j => vs.getD j .null) [forProg] (4 * vs.length + 5)
        (initState [c7Iter]) = (vs.map (fun v => ("x", v)), .halted)) ∧
    (∀ (iter : Nat → T_Data) (packages : List CodeProgram) (st : VMState)
       (f : Frame) (rest : List Frame) (t : Nat) (v : T_Data) (s2 : List T_Data),
       st.callStack = f :: rest → f.callFlag = true →
       fetchInstr packages st = some (.FOR t) → f.operateStack = v :: s2 →
       step iter packages st =
         if isNullV v then
           .next { st with
             callStack := { f with operateStack := s2, callFlag := false } :: rest,
             pc := t }
         else
           .next { st with
             callStack := { f with callFlag := false } :: rest, pc := st.pc + 1 }) := by
  constructor
  · have hnn : ∀ j, j < vs.length → (fun j => vs.getD j .null) (0 + j) ≠ .null := by
      intro j hj
      simp only [Nat.zero_add]
      rw [List.getD_eq_getElem vs .null hj]
      exact hvs _ (List.getElem_mem hj)
    have hnull : (fun j => vs.getD j .null) (0 + vs.length) = .null := by
      simp only [Nat.zero_add]
      exact List.getD_eq_default vs .null (le_refl _)
    have hg : varLookup ([] : VarMap) "x" ≠ some .globalRef := by simp [varLookup]
    have h := c7_loop (fun j => vs.getD j .null) vs.length 0 [] hnn hnull hg
    simp only [Nat.zero_add] at h
    rw [show initState [c7Iter] = loopState 0 [] from rfl, h, range_map_getD]
  · intro iter packages st f rest t v s2 hcs hflag hfetch hstk
    rcases hp : packages[st.currentModuleId]? with _ | prog
    · simp [fetchInstr, hp] at hfetch
    · simp only [fetchInstr, hp] at hfetch
      cases hv : isNullV v <;> simp [step, hcs, hp, hfetch, hstk, hflag, hv]

/-- Witness for C7 with the iterator yielding `7` then `Null`. -/
theorem c7_for_iterator_protocol_witness :
    (∀ v ∈ [T_Data.int 7], v ≠ .null) ∧
    runTrace (fun j => [T_Data.int 7].getD j .null) [forProg] 9 (initState [c7Iter])
      = ([("x", T_Data.int 7)], .halted) := by
  have hvs : ∀ v ∈ [T_Data.int 7], v ≠ .null := by simp
  have h := (c7_for_iterator_protocol [T_Data.int 7] hvs).1
  exact ⟨hvs, by simpa using h⟩
